import Mathlib

/-!
Verification of the Obelisk combat core (stat_core) against its
natural-language specification.

Numeric model: every Rust `f64` is embedded as an exact rational (`ℚ`).
All combat math in the source is plain field arithmetic with clamps and
comparisons, so the rational embedding mirrors the formulas exactly.

Source files embedded here:
- `stat_core/src/defense/resistance.rs` (resistance mitigation)
- `stat_core/src/config/constants.rs` (constants, OnceLock lifecycle)
- `stat_core/src/config/dots.rs` (DoT registry lifecycle)
- `stat_core/src/types.rs` (Effect, Effect::tick)
- `stat_core/src/stat_block/aggregator.rs` (StatAccumulator)
- `stat_core/src/combat/resolution.rs` (resolve_damage_with_rng)

A few definitions the resolution pipeline depends on live in files that are
not part of the provided sources (the StatBlock/StatValue module, the
armour/evasion helpers, the CombatResult struct and the DoT config types);
those are modelled from the specification and are marked as such in their
doc comments.
-/

namespace Obelisk

/-- Rust `f64::max`. -/
def fmax (x y : ℚ) : ℚ := if x < y then y else x

/-- Rust `f64::min`. -/
def fmin (x y : ℚ) : ℚ := if y < x then y else x

/-- Rust `f64::clamp(lo, hi)`: values below `lo` go to `lo`, above `hi` to `hi`. -/
def rclamp (x lo hi : ℚ) : ℚ := if x < lo then lo else if hi < x then hi else x

/-- Damage types (`loot_core/src/types.rs`, enum `DamageType`). -/
inductive DamageType where
  | Physical
  | Fire
  | Cold
  | Lightning
  | Chaos
deriving DecidableEq, Repr

/-- Status effect types (`loot_core/src/types.rs`, enum `StatusEffect`). -/
inductive StatusEffect where
  | Freeze
  | Chill
  | Burn
  | Fear
  | Slow
  | Static
  | Poison
  | Bleed
deriving DecidableEq, Repr

/-- Modelled from the spec: the `StatValue` aggregation primitive
(`stat_core`'s stat_block module is not in src/). Spec section 3:
`{ base, flat, increased : fraction, more : ordered list of fractions }`,
computed value `(base + flat) * (1 + increased) * prod (1 + more_i)`. -/
structure StatValue where
  base : ℚ
  flat : ℚ
  increased : ℚ
  more : List ℚ
deriving DecidableEq, Repr

namespace StatValue

/-- Modelled from the spec: a zero stat value. -/
def zero : StatValue := ⟨0, 0, 0, []⟩

/-- Modelled from the spec: the computed value of a `StatValue`. -/
def compute (s : StatValue) : ℚ :=
  (s.base + s.flat) * (1 + s.increased) * (s.more.map (fun m => 1 + m)).prod

/-- Modelled from the spec: `add_flat` adds into the flat layer. -/
def add_flat (s : StatValue) (v : ℚ) : StatValue := { s with flat := s.flat + v }

/-- Modelled from the spec: `add_increased` adds into the summed increased layer. -/
def add_increased (s : StatValue) (v : ℚ) : StatValue :=
  { s with increased := s.increased + v }

/-- Modelled from the spec: `add_more` appends an independent multiplicative layer. -/
def add_more (s : StatValue) (v : ℚ) : StatValue := { s with more := s.more ++ [v] }

end StatValue

/-! ## Configuration constants (`config/constants.rs`) -/

/-- Resistance constants (`config/constants.rs`, struct `ResistanceConstants`). -/
structure ResistanceConstants where
  max_cap : ℚ
  min_value : ℚ
  penetration_vs_capped : ℚ
deriving DecidableEq, Repr

/-- Default resistance constants (`config/constants.rs`, `impl Default`):
`max_cap = 100`, `min_value = -200`, `penetration_vs_capped = 0.5`. -/
def ResistanceConstants.default : ResistanceConstants :=
  { max_cap := 100, min_value := -200, penetration_vs_capped := 1/2 }

/-- Armour constants (`config/constants.rs`, struct `ArmourConstants`). -/
structure ArmourConstants where
  damage_constant : ℚ
deriving DecidableEq, Repr

/-- Default armour constants: `damage_constant = 5`. -/
def ArmourConstants.default : ArmourConstants := { damage_constant := 5 }

/-- Evasion constants (`config/constants.rs`, struct `EvasionConstants`). -/
structure EvasionConstants where
  scale_factor : ℚ
deriving DecidableEq, Repr

/-- Default evasion constants: `scale_factor = 1000`. -/
def EvasionConstants.default : EvasionConstants := { scale_factor := 1000 }

/-- Game constants (`config/constants.rs`, struct `GameConstants`); only the
components the embedded combat math reads are carried. -/
structure GameConstants where
  resistances : ResistanceConstants
  armour : ArmourConstants
  evasion : EvasionConstants
deriving DecidableEq, Repr

/-- Default game constants (`config/constants.rs`, `impl Default for GameConstants`). -/
def GameConstants.default : GameConstants :=
  { resistances := ResistanceConstants.default
    armour := ArmourConstants.default
    evasion := EvasionConstants.default }

/-! ## Resistance mitigation (`defense/resistance.rs`)

The source reads the process-wide constants via `constants()`; the embedding
passes the `ResistanceConstants` explicitly. -/

/-- Rust `calculate_effective_resistance` (`defense/resistance.rs:39-52`):
clamp the resistance, apply penetration (at `penetration_vs_capped`
effectiveness when the clamped resistance sits at the cap), clamp again. -/
def calculate_effective_resistance (rc : ResistanceConstants)
    (resistance penetration : ℚ) : ℚ :=
  let clamped_resist := rclamp resistance rc.min_value rc.max_cap
  let effective :=
    if clamped_resist ≥ rc.max_cap then
      rc.max_cap - penetration * rc.penetration_vs_capped
    else
      clamped_resist - penetration
  rclamp effective rc.min_value rc.max_cap

/-- Rust `calculate_resistance_mitigation` (`defense/resistance.rs:22-34`):
damage after resistance; non-positive damage short-circuits to 0, the result
is floored at 0. -/
def calculate_resistance_mitigation (rc : ResistanceConstants)
    (damage resistance penetration : ℚ) : ℚ :=
  if damage ≤ 0 then 0
  else
    let effective_resist := calculate_effective_resistance rc resistance penetration
    let mitigation := effective_resist / 100
    let damage_mult := 1 - mitigation
    fmax (damage * damage_mult) 0

/-! ## Stat identifiers (`loot_core/src/types.rs`, enum `StatType`) -/

/-- Stat modifier types that affixes can grant (`loot_core/src/types.rs`). -/
inductive StatType where
  | AddedPhysicalDamage
  | AddedFireDamage
  | AddedColdDamage
  | AddedLightningDamage
  | AddedChaosDamage
  | IncreasedPhysicalDamage
  | IncreasedFireDamage
  | IncreasedColdDamage
  | IncreasedLightningDamage
  | IncreasedElementalDamage
  | IncreasedChaosDamage
  | IncreasedAttackSpeed
  | IncreasedCriticalChance
  | IncreasedCriticalDamage
  | PoisonDamageOverTime
  | IncreasedPoisonDuration
  | PoisonMagnitude
  | PoisonMaxStacks
  | ConvertPhysicalToPoison
  | ConvertFireToPoison
  | ConvertColdToPoison
  | ConvertLightningToPoison
  | ConvertChaosToPoison
  | BleedDamageOverTime
  | IncreasedBleedDuration
  | BleedMagnitude
  | BleedMaxStacks
  | ConvertPhysicalToBleed
  | ConvertFireToBleed
  | ConvertColdToBleed
  | ConvertLightningToBleed
  | ConvertChaosToBleed
  | BurnDamageOverTime
  | IncreasedBurnDuration
  | BurnMagnitude
  | BurnMaxStacks
  | ConvertPhysicalToBurn
  | ConvertFireToBurn
  | ConvertColdToBurn
  | ConvertLightningToBurn
  | ConvertChaosToBurn
  | IncreasedFreezeDuration
  | FreezeMagnitude
  | FreezeMaxStacks
  | ConvertPhysicalToFreeze
  | ConvertFireToFreeze
  | ConvertColdToFreeze
  | ConvertLightningToFreeze
  | ConvertChaosToFreeze
  | IncreasedChillDuration
  | ChillMagnitude
  | ChillMaxStacks
  | ConvertPhysicalToChill
  | ConvertFireToChill
  | ConvertColdToChill
  | ConvertLightningToChill
  | ConvertChaosToChill
  | IncreasedStaticDuration
  | StaticMagnitude
  | StaticMaxStacks
  | ConvertPhysicalToStatic
  | ConvertFireToStatic
  | ConvertColdToStatic
  | ConvertLightningToStatic
  | ConvertChaosToStatic
  | IncreasedFearDuration
  | FearMagnitude
  | FearMaxStacks
  | ConvertPhysicalToFear
  | ConvertFireToFear
  | ConvertColdToFear
  | ConvertLightningToFear
  | ConvertChaosToFear
  | IncreasedSlowDuration
  | SlowMagnitude
  | SlowMaxStacks
  | ConvertPhysicalToSlow
  | ConvertFireToSlow
  | ConvertColdToSlow
  | ConvertLightningToSlow
  | ConvertChaosToSlow
  | AddedArmour
  | AddedEvasion
  | AddedEnergyShield
  | IncreasedArmour
  | IncreasedEvasion
  | IncreasedEnergyShield
  | AddedStrength
  | AddedDexterity
  | AddedConstitution
  | AddedIntelligence
  | AddedWisdom
  | AddedCharisma
  | AddedAllAttributes
  | IncreasedStrength
  | IncreasedDexterity
  | IncreasedConstitution
  | IncreasedIntelligence
  | IncreasedWisdom
  | IncreasedCharisma
  | IncreasedAllAttributes
  | AddedLife
  | AddedMana
  | IncreasedLife
  | IncreasedMana
  | LifeRegeneration
  | ManaRegeneration
  | LifeOnHit
  | LifeLeech
  | ManaLeech
  | FireResistance
  | ColdResistance
  | LightningResistance
  | ChaosResistance
  | AllResistances
  | AddedAccuracy
  | IncreasedAccuracy
  | IncreasedMovementSpeed
  | IncreasedItemRarity
  | IncreasedItemQuantity
  | IncreasedPoisonDamage
  | IncreasedBleedDamage
  | IncreasedBurnDamage
  | IncreasedFreezeDamage
  | IncreasedChillDamage
  | IncreasedStaticDamage
  | IncreasedFearDamage
  | IncreasedSlowDamage
  | IncreasedAllStatusDamage
  | IncreasedDamagingStatusDamage
  | IncreasedNonDamagingStatusDamage
  | StatusMagnitudeOnCrit
  | IncreasedStatusDamageOnCrit
  | BlockChance
  | BlockAmount
  | SpellDodgeChance
  | IncreasedAreaOfEffect
  | AdditionalProjectiles
  | IncreasedProjectileSpeed
  | IncreasedSkillDuration
  | CooldownReduction
  | ReducedManaCost
  | IncreasedCastSpeed
  | IncreasedGlobalDamage
  | DamageOverTimeMultiplier
  | ReducedDamageTaken
  | PhysicalDamageReduction
  | PhysicalPenetration
  | CullingStrike
  | LifeOnKill
  | ManaOnKill
deriving DecidableEq, Repr

/-! ## DoT configuration (`stat_core/src/dot`) -/

/-- Modelled from the spec: the DoT stacking rule (`dot/types.rs` is not in
src/; the variants and the `stack_effectiveness`/`max_stacks` payload of
`Limited` are spec section 3 `DotConfig` and the dots.rs test fixture). -/
inductive DotStacking where
  | StrongestOnly
  | Unlimited
  | Limited (stack_effectiveness : ℚ) (max_stacks : ℕ)
deriving DecidableEq, Repr

/-- Modelled from the spec: the status-application mode read by
`resolve_damage_with_rng` (`crate::dot::StatusApplication`, whose defining
file is not in src/): either buildup up to a threshold, or the default
chance-based mode (spec section 4.3 step 11). -/
inductive StatusApplication where
  | Buildup (threshold : ℚ)
  | Chance
deriving DecidableEq, Repr

/-- Modelled from the spec: per-status DoT configuration (`dot/types.rs` is
not in src/; fields are the ones read by the files that are: id, name,
base_duration, base_damage_percent, tick_rate, moving_multiplier, stacking,
max_stacks, application). -/
structure DotConfig where
  id : String
  name : String
  damage_type : DamageType
  base_duration : ℚ
  base_damage_percent : ℚ
  tick_rate : ℚ
  moving_multiplier : ℚ
  stacking : DotStacking
  max_stacks : ℕ
  application : StatusApplication
deriving DecidableEq, Repr

/-- DoT type registry (`dot/mod.rs`, struct `DotRegistry`); the `HashMap` is
embedded as a lookup function from ids. -/
structure DotRegistry where
  configs : String → Option DotConfig

namespace DotRegistry

/-- Rust `DotRegistry::new` (`dot/mod.rs:22-26`): empty registry. -/
def new : DotRegistry := ⟨fun _ => none⟩

/-- Rust `DotRegistry::register` (`dot/mod.rs:29-31`): insert keyed by `config.id`. -/
def register (r : DotRegistry) (config : DotConfig) : DotRegistry :=
  ⟨fun id => if id = config.id then some config else r.configs id⟩

/-- Rust `DotRegistry::get` (`dot/mod.rs:34-36`). -/
def get (r : DotRegistry) (id : String) : Option DotConfig := r.configs id

end DotRegistry

/-! ## Effects (`stat_core/src/types.rs`) -/

/-- A stat modifier from an effect (`types.rs`, struct `StatMod`). -/
structure StatMod where
  stat : StatType
  value_per_stack : ℚ
  is_more : Bool
deriving DecidableEq, Repr

/-- How ailments stack (`types.rs`, enum `AilmentStacking`). -/
inductive AilmentStacking where
  | StrongestOnly
  | Unlimited
  | Limited (stack_effectiveness : ℚ)
deriving DecidableEq, Repr

/-- The type of effect (`types.rs`, enum `EffectType`). -/
inductive EffectType where
  | StatModifier (modifiers : List StatMod) (is_debuff : Bool)
  | Ailment (status : StatusEffect) (magnitude : ℚ) (dot_dps : ℚ) (tick_rate : ℚ)
      (time_until_tick : ℚ) (stacking : AilmentStacking) (effectiveness : ℚ)
deriving DecidableEq, Repr

/-- A unified effect (`types.rs`, struct `Effect`). -/
structure Effect where
  id : String
  name : String
  effect_type : EffectType
  duration_remaining : ℚ
  total_duration : ℚ
  stacks' : ℕ
  max_stacks : ℕ
  source_id : String
deriving DecidableEq, Repr

namespace Effect

/-- Rust `Effect::new_ailment` (`types.rs:130-159`): a fresh single-stack
ailment whose `time_until_tick` starts at `tick_rate`, effectiveness 1,
`max_stacks` 999. -/
def new_ailment (id name : String) (status : StatusEffect) (duration magnitude dot_dps
    tick_rate : ℚ) (stacking : AilmentStacking) (source_id : String) : Effect :=
  { id := id
    name := name
    effect_type := .Ailment status magnitude dot_dps tick_rate tick_rate stacking 1
    duration_remaining := duration
    total_duration := duration
    stacks' := 1
    max_stacks := 999
    source_id := source_id }

/-- Rust `Effect::from_config` (`types.rs:165-194`): build via `new_ailment`
from the registry config, then override `max_stacks` from the config. -/
def from_config (config : DotConfig) (status : StatusEffect)
    (duration magnitude dot_dps : ℚ) (source_id : String) : Effect :=
  let stacking : AilmentStacking :=
    match config.stacking with
    | .StrongestOnly => .StrongestOnly
    | .Unlimited => .Unlimited
    | .Limited se _ => .Limited se
  let effect := new_ailment config.id config.name status duration magnitude dot_dps
    config.tick_rate stacking source_id
  { effect with max_stacks := config.max_stacks }

/-- Rust `Effect::is_active` (`types.rs:197-199`). -/
def is_active (e : Effect) : Prop := e.duration_remaining > 0 ∧ e.stacks' > 0

/-- Rust `Effect::dps` (`types.rs:228-235`). -/
def dps (e : Effect) : ℚ :=
  match e.effect_type with
  | .Ailment _ _ dot_dps _ _ _ effectiveness => dot_dps * e.stacks' * effectiveness
  | _ => 0

/-- Rust `Effect::add_stack` (`types.rs:256-260`): increment, capped at `max_stacks`. -/
def add_stack (e : Effect) : Effect :=
  if e.stacks' < e.max_stacks then { e with stacks' := e.stacks' + 1 } else e

end Effect

/-- The catch-up `while` loop inside `Effect::tick` (`types.rs:277-280`),
embedded with explicit fuel because the Rust loop diverges when
`tick_rate ≤ 0`. Loop state is `(time_until_tick, damage_dealt)`; one
iteration adds `per_tick = dot_dps * tick_rate * stacks' * effectiveness` to
the damage and `tick_rate` to `time_until_tick`. `none` means the fuel ran
out before the loop guard `time_until_tick ≤ 0 ∧ duration_remaining > 0`
went false. -/
def tickLoop (per_tick tick_rate dur : ℚ) : ℕ → ℚ → ℚ → Option (ℚ × ℚ)
  | 0, t, dmg => if t ≤ 0 ∧ 0 < dur then none else some (t, dmg)
  | fuel + 1, t, dmg =>
      if t ≤ 0 ∧ 0 < dur then
        tickLoop per_tick tick_rate dur fuel (t + tick_rate) (dmg + per_tick)
      else some (t, dmg)

/-- Rust `Effect::tick` (`types.rs:270-288`): for an ailment with
`dot_dps > 0`, first subtract `delta` from `time_until_tick`, then run the
catch-up loop; `duration_remaining` is decremented by `delta` on every call
regardless. Returns the updated effect and the damage dealt this call, or
`none` when the fuel bound does not cover the loop. -/
def Effect.tick (e : Effect) (delta : ℚ) (fuel : ℕ) : Option (Effect × ℚ) :=
  match e.effect_type with
  | .Ailment status magnitude dot_dps tick_rate time_until_tick stacking effectiveness =>
      if 0 < dot_dps then
        match tickLoop (dot_dps * tick_rate * e.stacks' * effectiveness) tick_rate
            e.duration_remaining fuel (time_until_tick - delta) 0 with
        | none => none
        | some (t, dmg) =>
            some ({ e with
                      effect_type := .Ailment status magnitude dot_dps tick_rate t
                        stacking effectiveness
                      duration_remaining := e.duration_remaining - delta }, dmg)
      else
        some ({ e with duration_remaining := e.duration_remaining - delta }, 0)
  | _ => some ({ e with duration_remaining := e.duration_remaining - delta }, 0)

/-! ## Process-wide configuration lifecycle (`config/constants.rs`, `config/dots.rs`)

The Rust code keeps both registries in `std::sync::OnceLock` globals; the
embedding passes the lock state (`Option` of the stored value) explicitly and
returns the new state. Loading/parsing of the configuration file is opaque
here, so the loader's outcome is a parameter. A panic (from `.expect`) is
embedded as an `Except.error` carrying the panic message. -/

/-- Rust `init_constants` (`config/constants.rs:16-21`): on load failure the
error propagates; otherwise `OnceLock::set` fails with a `ValidationError`
when the constants were already initialized. -/
def init_constants (loaded : Except String GameConstants)
    (st : Option GameConstants) : Except String Unit × Option GameConstants :=
  match loaded with
  | .error e => (.error e, st)
  | .ok c =>
      match st with
      | some g => (.error "GameConstants already initialized", some g)
      | none => (.ok (), some c)

/-- Rust `constants` (`config/constants.rs:35-39`): read of the global;
panics when uninitialized. -/
def constants (st : Option GameConstants) : Except String GameConstants :=
  match st with
  | some c => .ok c
  | none => .error
      "GameConstants not initialized - call init_constants() or init_constants_default() first"

/-- Rust `init_dot_registry` (`config/dots.rs:20-24`): on load failure the
error propagates; otherwise the result of `OnceLock::set` is discarded with
`.ok()` and the function returns `Ok(())` even when the registry was already
initialized (the previously stored registry is kept). -/
def init_dot_registry (loaded : Except String DotRegistry)
    (st : Option DotRegistry) : Except String Unit × Option DotRegistry :=
  match loaded with
  | .error e => (.error e, st)
  | .ok reg =>
      match st with
      | some r => (.ok (), some r)
      | none => (.ok (), some reg)

/-- Rust `dot_registry` (`config/dots.rs:33-35`): read of the global; panics
when uninitialized. -/
def dot_registry (st : Option DotRegistry) : Except String DotRegistry :=
  match st with
  | some r => .ok r
  | none => .error "DoT registry not initialized. Call init_dot_registry() first."

/-! ## Stat accumulation (`stat_block/aggregator.rs`) -/

/-- Stats for a specific status effect type (`aggregator.rs`, struct
`StatusEffectStats`). -/
structure StatusEffectStats where
  dot_increased : ℚ
  duration_increased : ℚ
  magnitude : ℚ
  max_stacks : ℤ
deriving DecidableEq, Repr

/-- Default (all-zero) `StatusEffectStats`. -/
def StatusEffectStats.default : StatusEffectStats :=
  { dot_increased := 0, duration_increased := 0, magnitude := 0, max_stacks := 0 }

/-- Conversion stats from damage types to a status effect (`aggregator.rs`,
struct `StatusConversions`); the inner `HashMap<DamageType, f64>` is embedded
as a total function with default 0, matching the `unwrap_or(0.0)` reads. -/
structure StatusConversions where
  conversions : DamageType → ℚ

/-- Default (all-zero) `StatusConversions`. -/
def StatusConversions.default : StatusConversions := ⟨fun _ => 0⟩

/-- Rust `StatusConversions::from_damage_type` (`aggregator.rs:35-37`). -/
def StatusConversions.from_damage_type (c : StatusConversions) (dt : DamageType) : ℚ :=
  c.conversions dt

/-- Rust `StatusConversions::add_conversion` (`aggregator.rs:40-42`). -/
def StatusConversions.add_conversion (c : StatusConversions) (dt : DamageType) (v : ℚ) :
    StatusConversions :=
  ⟨fun d => if d = dt then c.conversions d + v else c.conversions d⟩

/-- The accumulator of stat modifications (`aggregator.rs`, struct
`StatAccumulator`). The two status `HashMap`s are embedded as total
functions (defaults matching `or_default`) together with the set of keys
actually inserted, since `apply_to` iterates only over inserted keys. -/
structure StatAccumulator where
  life_flat : ℚ
  life_increased : ℚ
  life_more : List ℚ
  mana_flat : ℚ
  mana_increased : ℚ
  mana_more : List ℚ
  strength_flat : ℚ
  dexterity_flat : ℚ
  intelligence_flat : ℚ
  constitution_flat : ℚ
  wisdom_flat : ℚ
  charisma_flat : ℚ
  all_attributes_flat : ℚ
  armour_flat : ℚ
  armour_increased : ℚ
  evasion_flat : ℚ
  evasion_increased : ℚ
  energy_shield_flat : ℚ
  energy_shield_increased : ℚ
  fire_resistance : ℚ
  cold_resistance : ℚ
  lightning_resistance : ℚ
  chaos_resistance : ℚ
  all_resistances : ℚ
  physical_damage_flat : ℚ
  physical_damage_increased : ℚ
  physical_damage_more : List ℚ
  fire_damage_flat : ℚ
  fire_damage_increased : ℚ
  fire_damage_more : List ℚ
  cold_damage_flat : ℚ
  cold_damage_increased : ℚ
  cold_damage_more : List ℚ
  lightning_damage_flat : ℚ
  lightning_damage_increased : ℚ
  lightning_damage_more : List ℚ
  chaos_damage_flat : ℚ
  chaos_damage_increased : ℚ
  chaos_damage_more : List ℚ
  elemental_damage_increased : ℚ
  attack_speed_increased : ℚ
  cast_speed_increased : ℚ
  critical_chance_flat : ℚ
  critical_chance_increased : ℚ
  critical_multiplier_flat : ℚ
  fire_penetration : ℚ
  cold_penetration : ℚ
  lightning_penetration : ℚ
  chaos_penetration : ℚ
  life_regen_flat : ℚ
  mana_regen_flat : ℚ
  life_leech_percent : ℚ
  mana_leech_percent : ℚ
  life_on_hit : ℚ
  accuracy_flat : ℚ
  accuracy_increased : ℚ
  movement_speed_increased : ℚ
  item_rarity_increased : ℚ
  item_quantity_increased : ℚ
  weapon_physical_min : ℚ
  weapon_physical_max : ℚ
  weapon_physical_increased : ℚ
  weapon_elemental_damages : List (DamageType × ℚ × ℚ)
  weapon_attack_speed : ℚ
  weapon_crit_chance : ℚ
  status_stats : StatusEffect → StatusEffectStats
  status_stats_keys : Finset StatusEffect
  status_conversions : StatusEffect → StatusConversions
  status_conversions_keys : Finset StatusEffect

namespace StatAccumulator

/-- Rust `StatAccumulator::new` / `Default` (`aggregator.rs:143-145`): all
fields zero / empty. -/
def new : StatAccumulator where
  life_flat := 0
  life_increased := 0
  life_more := []
  mana_flat := 0
  mana_increased := 0
  mana_more := []
  strength_flat := 0
  dexterity_flat := 0
  intelligence_flat := 0
  constitution_flat := 0
  wisdom_flat := 0
  charisma_flat := 0
  all_attributes_flat := 0
  armour_flat := 0
  armour_increased := 0
  evasion_flat := 0
  evasion_increased := 0
  energy_shield_flat := 0
  energy_shield_increased := 0
  fire_resistance := 0
  cold_resistance := 0
  lightning_resistance := 0
  chaos_resistance := 0
  all_resistances := 0
  physical_damage_flat := 0
  physical_damage_increased := 0
  physical_damage_more := []
  fire_damage_flat := 0
  fire_damage_increased := 0
  fire_damage_more := []
  cold_damage_flat := 0
  cold_damage_increased := 0
  cold_damage_more := []
  lightning_damage_flat := 0
  lightning_damage_increased := 0
  lightning_damage_more := []
  chaos_damage_flat := 0
  chaos_damage_increased := 0
  chaos_damage_more := []
  elemental_damage_increased := 0
  attack_speed_increased := 0
  cast_speed_increased := 0
  critical_chance_flat := 0
  critical_chance_increased := 0
  critical_multiplier_flat := 0
  fire_penetration := 0
  cold_penetration := 0
  lightning_penetration := 0
  chaos_penetration := 0
  life_regen_flat := 0
  mana_regen_flat := 0
  life_leech_percent := 0
  mana_leech_percent := 0
  life_on_hit := 0
  accuracy_flat := 0
  accuracy_increased := 0
  movement_speed_increased := 0
  item_rarity_increased := 0
  item_quantity_increased := 0
  weapon_physical_min := 0
  weapon_physical_max := 0
  weapon_physical_increased := 0
  weapon_elemental_damages := []
  weapon_attack_speed := 0
  weapon_crit_chance := 0
  status_stats := fun _ => StatusEffectStats.default
  status_stats_keys := ∅
  status_conversions := fun _ => StatusConversions.default
  status_conversions_keys := ∅

/-- Rust `StatAccumulator::add_status_dot` (`aggregator.rs:301-303`):
`entry(status).or_default().dot_increased += value`. -/
def add_status_dot (a : StatAccumulator) (status : StatusEffect) (v : ℚ) : StatAccumulator :=
  { a with
    status_stats := fun s =>
      if s = status then
        { a.status_stats s with dot_increased := (a.status_stats s).dot_increased + v }
      else a.status_stats s
    status_stats_keys := insert status a.status_stats_keys }

/-- Rust `StatAccumulator::add_status_duration` (`aggregator.rs:306-308`). -/
def add_status_duration (a : StatAccumulator) (status : StatusEffect) (v : ℚ) :
    StatAccumulator :=
  { a with
    status_stats := fun s =>
      if s = status then
        { a.status_stats s with
          duration_increased := (a.status_stats s).duration_increased + v }
      else a.status_stats s
    status_stats_keys := insert status a.status_stats_keys }

/-- Rust `StatAccumulator::add_status_magnitude` (`aggregator.rs:311-313`). -/
def add_status_magnitude (a : StatAccumulator) (status : StatusEffect) (v : ℚ) :
    StatAccumulator :=
  { a with
    status_stats := fun s =>
      if s = status then
        { a.status_stats s with magnitude := (a.status_stats s).magnitude + v }
      else a.status_stats s
    status_stats_keys := insert status a.status_stats_keys }

/-- Rust `StatAccumulator::add_status_max_stacks` (`aggregator.rs:316-318`). -/
def add_status_max_stacks (a : StatAccumulator) (status : StatusEffect) (v : ℤ) :
    StatAccumulator :=
  { a with
    status_stats := fun s =>
      if s = status then
        { a.status_stats s with max_stacks := (a.status_stats s).max_stacks + v }
      else a.status_stats s
    status_stats_keys := insert status a.status_stats_keys }

/-- Rust `StatAccumulator::add_conversion` (`aggregator.rs:321-323`):
`status_conversions.entry(to).or_default().add_conversion(from, value)`. -/
def add_conversion (a : StatAccumulator) (from_ : DamageType) (to_ : StatusEffect) (v : ℚ) :
    StatAccumulator :=
  { a with
    status_conversions := fun s =>
      if s = to_ then (a.status_conversions s).add_conversion from_ v
      else a.status_conversions s
    status_conversions_keys := insert to_ a.status_conversions_keys }

end StatAccumulator

/-- Rust `value as i32`: float-to-integer casts truncate toward zero. -/
def f64_as_i32 (q : ℚ) : ℤ := q.num.tdiv (q.den : ℤ)

namespace StatAccumulator

/-- Rust `StatAccumulator::apply_stat_type` (`aggregator.rs:148-296`): the
exhaustive dispatch from a stat identifier to an accumulator mutation.
Percentage-denominated inputs are divided by 100 before storage. `StatType`
variants that have no arm in the aggregator's match leave the accumulator
unchanged. -/
def apply_stat_type (a : StatAccumulator) (stat : StatType) (value : ℚ) : StatAccumulator :=
  match stat with
  | .AddedPhysicalDamage => { a with physical_damage_flat := a.physical_damage_flat + value }
  | .AddedFireDamage => { a with fire_damage_flat := a.fire_damage_flat + value }
  | .AddedColdDamage => { a with cold_damage_flat := a.cold_damage_flat + value }
  | .AddedLightningDamage => { a with lightning_damage_flat := a.lightning_damage_flat + value }
  | .AddedChaosDamage => { a with chaos_damage_flat := a.chaos_damage_flat + value }
  | .IncreasedPhysicalDamage =>
      { a with physical_damage_increased := a.physical_damage_increased + value / 100 }
  | .IncreasedFireDamage =>
      { a with fire_damage_increased := a.fire_damage_increased + value / 100 }
  | .IncreasedColdDamage =>
      { a with cold_damage_increased := a.cold_damage_increased + value / 100 }
  | .IncreasedLightningDamage =>
      { a with lightning_damage_increased := a.lightning_damage_increased + value / 100 }
  | .IncreasedElementalDamage =>
      { a with elemental_damage_increased := a.elemental_damage_increased + value / 100 }
  | .IncreasedChaosDamage =>
      { a with chaos_damage_increased := a.chaos_damage_increased + value / 100 }
  | .IncreasedAttackSpeed =>
      { a with attack_speed_increased := a.attack_speed_increased + value / 100 }
  | .IncreasedCriticalChance =>
      { a with critical_chance_increased := a.critical_chance_increased + value / 100 }
  | .IncreasedCriticalDamage =>
      { a with critical_multiplier_flat := a.critical_multiplier_flat + value / 100 }
  | .AddedArmour => { a with armour_flat := a.armour_flat + value }
  | .AddedEvasion => { a with evasion_flat := a.evasion_flat + value }
  | .AddedEnergyShield => { a with energy_shield_flat := a.energy_shield_flat + value }
  | .IncreasedArmour => { a with armour_increased := a.armour_increased + value / 100 }
  | .IncreasedEvasion => { a with evasion_increased := a.evasion_increased + value / 100 }
  | .IncreasedEnergyShield =>
      { a with energy_shield_increased := a.energy_shield_increased + value / 100 }
  | .AddedStrength => { a with strength_flat := a.strength_flat + value }
  | .AddedDexterity => { a with dexterity_flat := a.dexterity_flat + value }
  | .AddedConstitution => { a with constitution_flat := a.constitution_flat + value }
  | .AddedIntelligence => { a with intelligence_flat := a.intelligence_flat + value }
  | .AddedWisdom => { a with wisdom_flat := a.wisdom_flat + value }
  | .AddedCharisma => { a with charisma_flat := a.charisma_flat + value }
  | .AddedAllAttributes => { a with all_attributes_flat := a.all_attributes_flat + value }
  | .AddedLife => { a with life_flat := a.life_flat + value }
  | .AddedMana => { a with mana_flat := a.mana_flat + value }
  | .IncreasedLife => { a with life_increased := a.life_increased + value / 100 }
  | .IncreasedMana => { a with mana_increased := a.mana_increased + value / 100 }
  | .LifeRegeneration => { a with life_regen_flat := a.life_regen_flat + value }
  | .ManaRegeneration => { a with mana_regen_flat := a.mana_regen_flat + value }
  | .LifeOnHit => { a with life_on_hit := a.life_on_hit + value }
  | .LifeLeech => { a with life_leech_percent := a.life_leech_percent + value / 100 }
  | .ManaLeech => { a with mana_leech_percent := a.mana_leech_percent + value / 100 }
  | .FireResistance => { a with fire_resistance := a.fire_resistance + value }
  | .ColdResistance => { a with cold_resistance := a.cold_resistance + value }
  | .LightningResistance => { a with lightning_resistance := a.lightning_resistance + value }
  | .ChaosResistance => { a with chaos_resistance := a.chaos_resistance + value }
  | .AllResistances => { a with all_resistances := a.all_resistances + value }
  | .AddedAccuracy => { a with accuracy_flat := a.accuracy_flat + value }
  | .IncreasedAccuracy => { a with accuracy_increased := a.accuracy_increased + value / 100 }
  | .IncreasedMovementSpeed =>
      { a with movement_speed_increased := a.movement_speed_increased + value / 100 }
  | .IncreasedItemRarity =>
      { a with item_rarity_increased := a.item_rarity_increased + value / 100 }
  | .IncreasedItemQuantity =>
      { a with item_quantity_increased := a.item_quantity_increased + value / 100 }
  | .PoisonDamageOverTime => a.add_status_dot .Poison (value / 100)
  | .IncreasedPoisonDuration => a.add_status_duration .Poison (value / 100)
  | .PoisonMagnitude => a.add_status_magnitude .Poison (value / 100)
  | .PoisonMaxStacks => a.add_status_max_stacks .Poison (f64_as_i32 value)
  | .ConvertPhysicalToPoison => a.add_conversion .Physical .Poison (value / 100)
  | .ConvertFireToPoison => a.add_conversion .Fire .Poison (value / 100)
  | .ConvertColdToPoison => a.add_conversion .Cold .Poison (value / 100)
  | .ConvertLightningToPoison => a.add_conversion .Lightning .Poison (value / 100)
  | .ConvertChaosToPoison => a.add_conversion .Chaos .Poison (value / 100)
  | .BleedDamageOverTime => a.add_status_dot .Bleed (value / 100)
  | .IncreasedBleedDuration => a.add_status_duration .Bleed (value / 100)
  | .BleedMagnitude => a.add_status_magnitude .Bleed (value / 100)
  | .BleedMaxStacks => a.add_status_max_stacks .Bleed (f64_as_i32 value)
  | .ConvertPhysicalToBleed => a.add_conversion .Physical .Bleed (value / 100)
  | .ConvertFireToBleed => a.add_conversion .Fire .Bleed (value / 100)
  | .ConvertColdToBleed => a.add_conversion .Cold .Bleed (value / 100)
  | .ConvertLightningToBleed => a.add_conversion .Lightning .Bleed (value / 100)
  | .ConvertChaosToBleed => a.add_conversion .Chaos .Bleed (value / 100)
  | .BurnDamageOverTime => a.add_status_dot .Burn (value / 100)
  | .IncreasedBurnDuration => a.add_status_duration .Burn (value / 100)
  | .BurnMagnitude => a.add_status_magnitude .Burn (value / 100)
  | .BurnMaxStacks => a.add_status_max_stacks .Burn (f64_as_i32 value)
  | .ConvertPhysicalToBurn => a.add_conversion .Physical .Burn (value / 100)
  | .ConvertFireToBurn => a.add_conversion .Fire .Burn (value / 100)
  | .ConvertColdToBurn => a.add_conversion .Cold .Burn (value / 100)
  | .ConvertLightningToBurn => a.add_conversion .Lightning .Burn (value / 100)
  | .ConvertChaosToBurn => a.add_conversion .Chaos .Burn (value / 100)
  | .IncreasedFreezeDuration => a.add_status_duration .Freeze (value / 100)
  | .FreezeMagnitude => a.add_status_magnitude .Freeze (value / 100)
  | .FreezeMaxStacks => a.add_status_max_stacks .Freeze (f64_as_i32 value)
  | .ConvertPhysicalToFreeze => a.add_conversion .Physical .Freeze (value / 100)
  | .ConvertFireToFreeze => a.add_conversion .Fire .Freeze (value / 100)
  | .ConvertColdToFreeze => a.add_conversion .Cold .Freeze (value / 100)
  | .ConvertLightningToFreeze => a.add_conversion .Lightning .Freeze (value / 100)
  | .ConvertChaosToFreeze => a.add_conversion .Chaos .Freeze (value / 100)
  | .IncreasedChillDuration => a.add_status_duration .Chill (value / 100)
  | .ChillMagnitude => a.add_status_magnitude .Chill (value / 100)
  | .ChillMaxStacks => a.add_status_max_stacks .Chill (f64_as_i32 value)
  | .ConvertPhysicalToChill => a.add_conversion .Physical .Chill (value / 100)
  | .ConvertFireToChill => a.add_conversion .Fire .Chill (value / 100)
  | .ConvertColdToChill => a.add_conversion .Cold .Chill (value / 100)
  | .ConvertLightningToChill => a.add_conversion .Lightning .Chill (value / 100)
  | .ConvertChaosToChill => a.add_conversion .Chaos .Chill (value / 100)
  | .IncreasedStaticDuration => a.add_status_duration .Static (value / 100)
  | .StaticMagnitude => a.add_status_magnitude .Static (value / 100)
  | .StaticMaxStacks => a.add_status_max_stacks .Static (f64_as_i32 value)
  | .ConvertPhysicalToStatic => a.add_conversion .Physical .Static (value / 100)
  | .ConvertFireToStatic => a.add_conversion .Fire .Static (value / 100)
  | .ConvertColdToStatic => a.add_conversion .Cold .Static (value / 100)
  | .ConvertLightningToStatic => a.add_conversion .Lightning .Static (value / 100)
  | .ConvertChaosToStatic => a.add_conversion .Chaos .Static (value / 100)
  | .IncreasedFearDuration => a.add_status_duration .Fear (value / 100)
  | .FearMagnitude => a.add_status_magnitude .Fear (value / 100)
  | .FearMaxStacks => a.add_status_max_stacks .Fear (f64_as_i32 value)
  | .ConvertPhysicalToFear => a.add_conversion .Physical .Fear (value / 100)
  | .ConvertFireToFear => a.add_conversion .Fire .Fear (value / 100)
  | .ConvertColdToFear => a.add_conversion .Cold .Fear (value / 100)
  | .ConvertLightningToFear => a.add_conversion .Lightning .Fear (value / 100)
  | .ConvertChaosToFear => a.add_conversion .Chaos .Fear (value / 100)
  | .IncreasedSlowDuration => a.add_status_duration .Slow (value / 100)
  | .SlowMagnitude => a.add_status_magnitude .Slow (value / 100)
  | .SlowMaxStacks => a.add_status_max_stacks .Slow (f64_as_i32 value)
  | .ConvertPhysicalToSlow => a.add_conversion .Physical .Slow (value / 100)
  | .ConvertFireToSlow => a.add_conversion .Fire .Slow (value / 100)
  | .ConvertColdToSlow => a.add_conversion .Cold .Slow (value / 100)
  | .ConvertLightningToSlow => a.add_conversion .Lightning .Slow (value / 100)
  | .ConvertChaosToSlow => a.add_conversion .Chaos .Slow (value / 100)
  | _ => a

end StatAccumulator

/-! ## StatBlock (the stat_block module's own file is not in src/) -/

/-- Modelled from the spec: the per-`StatBlock` status-effect sub-stat table
(`attacker.status_effect_stats` with `get_stats` / `set_stats` /
`get_conversions` / `set_conversions`; spec section 3, StatAccumulator), as
two keyed tables. -/
structure StatusEffectData where
  stats : StatusEffect → StatusEffectStats
  conversions : StatusEffect → StatusConversions

/-- Modelled from the spec: an empty status-effect sub-stat table. -/
def StatusEffectData.empty : StatusEffectData :=
  { stats := fun _ => StatusEffectStats.default
    conversions := fun _ => StatusConversions.default }

/-- Modelled from the spec: `set_stats` overwrites one status's sub-stats. -/
def StatusEffectData.set_stats (d : StatusEffectData) (status : StatusEffect)
    (v : StatusEffectStats) : StatusEffectData :=
  { d with stats := fun s => if s = status then v else d.stats s }

/-- Modelled from the spec: `set_conversions` overwrites one status's
conversion table. -/
def StatusEffectData.set_conversions (d : StatusEffectData) (status : StatusEffect)
    (v : StatusConversions) : StatusEffectData :=
  { d with conversions := fun s => if s = status then v else d.conversions s }

/-- Modelled from the spec: the defender/attacker `StatBlock`
(spec section 3; its defining file is not in src/). Field selection and
naming follow the uses in `aggregator.rs::apply_to` and
`combat/resolution.rs::resolve_damage_with_rng`. The `computed_*` accessors
whose bodies are not in src/ are modelled as the plain fields
`spell_dodge_chance`, `block_chance`, `block_amount`. The per-status buildup
accumulators (`status_buildup`, a `HashMap` read with `or_insert(0.0)`) are a
total function with default 0. -/
structure StatBlock where
  max_life : StatValue
  max_mana : StatValue
  strength : StatValue
  dexterity : StatValue
  intelligence : StatValue
  constitution : StatValue
  wisdom : StatValue
  charisma : StatValue
  armour : StatValue
  evasion : StatValue
  fire_resistance : StatValue
  cold_resistance : StatValue
  lightning_resistance : StatValue
  chaos_resistance : StatValue
  global_physical_damage : StatValue
  global_fire_damage : StatValue
  global_cold_damage : StatValue
  global_lightning_damage : StatValue
  global_chaos_damage : StatValue
  attack_speed : StatValue
  cast_speed : StatValue
  critical_chance : StatValue
  critical_multiplier : StatValue
  fire_penetration : StatValue
  cold_penetration : StatValue
  lightning_penetration : StatValue
  chaos_penetration : StatValue
  life_regen : StatValue
  mana_regen : StatValue
  life_leech : StatValue
  mana_leech : StatValue
  accuracy : StatValue
  weapon_physical_min : ℚ
  weapon_physical_max : ℚ
  weapon_fire_min : ℚ
  weapon_fire_max : ℚ
  weapon_cold_min : ℚ
  weapon_cold_max : ℚ
  weapon_lightning_min : ℚ
  weapon_lightning_max : ℚ
  weapon_chaos_min : ℚ
  weapon_chaos_max : ℚ
  weapon_attack_speed : ℚ
  weapon_crit_chance : ℚ
  movement_speed_increased : ℚ
  item_rarity_increased : ℚ
  item_quantity_increased : ℚ
  status_effect_stats : StatusEffectData
  current_life : ℚ
  current_energy_shield : ℚ
  max_energy_shield : ℚ
  physical_damage_reduction : ℚ
  reduced_damage_taken : ℚ
  spell_dodge_chance : ℚ
  block_chance : ℚ
  block_amount : ℚ
  status_buildup : StatusEffect → ℚ
  effects : List Effect

namespace StatBlock

/-- Modelled from the spec: the defender's resistance for a damage type as
read by `resolve_damage_with_rng` (`new_defender.resistance(damage_type)`);
physical damage is exempt from resistance, so its entry is 0. -/
def resistance (b : StatBlock) (dt : DamageType) : ℚ :=
  match dt with
  | .Physical => 0
  | .Fire => b.fire_resistance.compute
  | .Cold => b.cold_resistance.compute
  | .Lightning => b.lightning_resistance.compute
  | .Chaos => b.chaos_resistance.compute

/-- Modelled from the spec: `computed_spell_dodge_chance` (a percentage). -/
def computed_spell_dodge_chance (b : StatBlock) : ℚ := b.spell_dodge_chance

/-- Modelled from the spec: `computed_block_chance` (a percentage). -/
def computed_block_chance (b : StatBlock) : ℚ := b.block_chance

/-- Modelled from the spec: `computed_block_amount` (a flat amount). -/
def computed_block_amount (b : StatBlock) : ℚ := b.block_amount

/-- Modelled from the spec: `computed_max_life`. -/
def computed_max_life (b : StatBlock) : ℚ := b.max_life.compute

/-- Modelled from the spec: `life_percent` as used by the culling-strike
step (current life as a percentage of maximum life). -/
def life_percent (b : StatBlock) : ℚ := b.current_life / b.computed_max_life * 100

/-- Modelled from the spec: `is_alive`. -/
def is_alive (b : StatBlock) : Prop := b.current_life > 0

/-- Magnitude of an effect, used to compare strength of non-damaging
ailments when stacking. -/
def effectMagnitude (e : Effect) : ℚ :=
  match e.effect_type with
  | .Ailment _ magnitude _ _ _ _ _ => magnitude
  | _ => 0

/-- Modelled from the spec: `add_effect` with stacking resolved inside the
add (spec section 4.4). `StrongestOnly`: the new instance replaces the
existing one only if it would deal more (DPS, falling back to magnitude for
non-damaging ailments). `Unlimited`: one more stack up to `max_stacks`.
`Limited{stack_effectiveness}`: one more stack up to `max_stacks`, with the
stacks beyond the first contributing at `stack_effectiveness` (represented
through the `effectiveness` factor of the combined instance, so that
`dps = dot_dps * stacks * effectiveness = dot_dps * (1 + (stacks-1)*se)`).
A new effect id is appended as-is. -/
def add_effect (b : StatBlock) (e : Effect) : StatBlock :=
  match b.effects.find? (fun ex => ex.id == e.id) with
  | none => { b with effects := b.effects ++ [e] }
  | some ex =>
      let stacking :=
        match ex.effect_type with
        | .Ailment _ _ _ _ _ stacking _ => some stacking
        | _ => none
      match stacking with
      | some .StrongestOnly =>
          if e.dps > ex.dps ∨ (e.dps = ex.dps ∧ effectMagnitude e > effectMagnitude ex) then
            { b with effects := b.effects.map (fun x => if x.id == e.id then e else x) }
          else b
      | some .Unlimited =>
          { b with effects := b.effects.map (fun x => if x.id == e.id then x.add_stack else x) }
      | some (.Limited se) =>
          { b with
            effects := b.effects.map (fun x =>
              if x.id == e.id then
                let x' := x.add_stack
                match x'.effect_type with
                | .Ailment st mag dps tr tut stk _ =>
                    { x' with effect_type := (.Ailment st mag dps tr tut stk
                        ((1 + ((x'.stacks' : ℚ) - 1) * se) / (x'.stacks' : ℚ)) : EffectType) }
                | _ => x'
              else x) }
      | none => { b with effects := b.effects ++ [e] }

end StatBlock

/-- The loop body of the weapon-elemental-damage application inside
`apply_to` (`aggregator.rs:443-465`): add the range onto the matching
weapon element; physical is handled separately. -/
def applyWeaponElemental (b : StatBlock) (wed : DamageType × ℚ × ℚ) : StatBlock :=
  match wed with
  | (DamageType.Fire, mn, mx) =>
      { b with weapon_fire_min := b.weapon_fire_min + mn,
               weapon_fire_max := b.weapon_fire_max + mx }
  | (DamageType.Cold, mn, mx) =>
      { b with weapon_cold_min := b.weapon_cold_min + mn,
               weapon_cold_max := b.weapon_cold_max + mx }
  | (DamageType.Lightning, mn, mx) =>
      { b with weapon_lightning_min := b.weapon_lightning_min + mn,
               weapon_lightning_max := b.weapon_lightning_max + mx }
  | (DamageType.Chaos, mn, mx) =>
      { b with weapon_chaos_min := b.weapon_chaos_min + mn,
               weapon_chaos_max := b.weapon_chaos_max + mx }
  | (DamageType.Physical, _, _) => b

/-- Rust `StatAccumulator::apply_to` (`aggregator.rs:344-483`): commit the
accumulated deltas onto a `StatBlock`, in the source's order. All-attributes
folds into each of the six attributes; all-resistances folds into fire, cold
and lightning (chaos receives only its own delta); elemental increased folds
into fire/cold/lightning damage only; the weapon physical range is scaled by
its local increased multiplier; weapon elemental ranges are added; status
tables are copied for the keys present in the accumulator's maps. -/
def StatAccumulator.apply_to (a : StatAccumulator) (block : StatBlock) : StatBlock :=
  let block := { block with
    max_life := ((a.life_more.foldl (fun sv m => sv.add_more m)
      ((block.max_life.add_flat a.life_flat).add_increased a.life_increased)))
    max_mana := ((a.mana_more.foldl (fun sv m => sv.add_more m)
      ((block.max_mana.add_flat a.mana_flat).add_increased a.mana_increased)))
    strength := block.strength.add_flat (a.strength_flat + a.all_attributes_flat)
    dexterity := block.dexterity.add_flat (a.dexterity_flat + a.all_attributes_flat)
    intelligence := block.intelligence.add_flat (a.intelligence_flat + a.all_attributes_flat)
    constitution := block.constitution.add_flat (a.constitution_flat + a.all_attributes_flat)
    wisdom := block.wisdom.add_flat (a.wisdom_flat + a.all_attributes_flat)
    charisma := block.charisma.add_flat (a.charisma_flat + a.all_attributes_flat)
    armour := (block.armour.add_flat a.armour_flat).add_increased a.armour_increased
    evasion := (block.evasion.add_flat a.evasion_flat).add_increased a.evasion_increased
    fire_resistance := block.fire_resistance.add_flat (a.fire_resistance + a.all_resistances)
    cold_resistance := block.cold_resistance.add_flat (a.cold_resistance + a.all_resistances)
    lightning_resistance :=
      block.lightning_resistance.add_flat (a.lightning_resistance + a.all_resistances)
    chaos_resistance := block.chaos_resistance.add_flat a.chaos_resistance
    global_physical_damage := a.physical_damage_more.foldl (fun sv m => sv.add_more m)
      ((block.global_physical_damage.add_flat a.physical_damage_flat).add_increased
        a.physical_damage_increased)
    global_fire_damage := a.fire_damage_more.foldl (fun sv m => sv.add_more m)
      ((block.global_fire_damage.add_flat a.fire_damage_flat).add_increased
        (a.fire_damage_increased + a.elemental_damage_increased))
    global_cold_damage := a.cold_damage_more.foldl (fun sv m => sv.add_more m)
      ((block.global_cold_damage.add_flat a.cold_damage_flat).add_increased
        (a.cold_damage_increased + a.elemental_damage_increased))
    global_lightning_damage := a.lightning_damage_more.foldl (fun sv m => sv.add_more m)
      ((block.global_lightning_damage.add_flat a.lightning_damage_flat).add_increased
        (a.lightning_damage_increased + a.elemental_damage_increased))
    global_chaos_damage := a.chaos_damage_more.foldl (fun sv m => sv.add_more m)
      ((block.global_chaos_damage.add_flat a.chaos_damage_flat).add_increased
        a.chaos_damage_increased)
    attack_speed := block.attack_speed.add_increased a.attack_speed_increased
    cast_speed := block.cast_speed.add_increased a.cast_speed_increased
    critical_chance := (block.critical_chance.add_flat a.critical_chance_flat).add_increased
      a.critical_chance_increased
    critical_multiplier := block.critical_multiplier.add_flat a.critical_multiplier_flat
    fire_penetration := block.fire_penetration.add_flat a.fire_penetration
    cold_penetration := block.cold_penetration.add_flat a.cold_penetration
    lightning_penetration := block.lightning_penetration.add_flat a.lightning_penetration
    chaos_penetration := block.chaos_penetration.add_flat a.chaos_penetration
    life_regen := block.life_regen.add_flat a.life_regen_flat
    mana_regen := block.mana_regen.add_flat a.mana_regen_flat
    life_leech := block.life_leech.add_flat a.life_leech_percent
    mana_leech := block.mana_leech.add_flat a.mana_leech_percent }
  let block :=
    if a.weapon_physical_min > 0 ∨ a.weapon_physical_max > 0 then
      let phys_mult := 1 + a.weapon_physical_increased
      { block with
        weapon_physical_min := a.weapon_physical_min * phys_mult
        weapon_physical_max := a.weapon_physical_max * phys_mult }
    else block
  let block :=
    if a.weapon_attack_speed > 0 then
      { block with weapon_attack_speed := a.weapon_attack_speed }
    else block
  let block :=
    if a.weapon_crit_chance > 0 then
      { block with weapon_crit_chance := a.weapon_crit_chance }
    else block
  let block := a.weapon_elemental_damages.foldl applyWeaponElemental block
  let block := { block with
    accuracy := (block.accuracy.add_flat a.accuracy_flat).add_increased a.accuracy_increased
    movement_speed_increased := block.movement_speed_increased + a.movement_speed_increased
    item_rarity_increased := block.item_rarity_increased + a.item_rarity_increased
    item_quantity_increased := block.item_quantity_increased + a.item_quantity_increased }
  { block with
    status_effect_stats :=
      { stats := fun s =>
          if s ∈ a.status_stats_keys then a.status_stats s
          else block.status_effect_stats.stats s
        conversions := fun s =>
          if s ∈ a.status_conversions_keys then a.status_conversions s
          else block.status_effect_stats.conversions s } }

/-! ## Damage packets and combat results

The `DamagePacket`/`CombatResult` struct definitions are not in src/; the
fields below are the ones read and written by `combat/resolution.rs` and
`damage/calculation.rs`, with the spec's section 3 descriptions. -/

/-- One resolved per-type damage amount on a packet (`FinalDamage`,
constructed as `FinalDamage::new(damage_type, amount)`). -/
structure FinalDamage where
  damage_type : DamageType
  amount : ℚ
deriving DecidableEq, Repr

/-- Modelled from the spec: a pending status-effect request on a packet
(spec section 3 `DamagePacket`: effect type, status damage magnitude,
duration, magnitude, DoT-DPS, bonus apply-chance). -/
structure PendingStatusEffect where
  effect_type : StatusEffect
  status_damage : ℚ
  duration : ℚ
  magnitude : ℚ
  dot_dps : ℚ
  apply_chance_increased : ℚ
deriving DecidableEq, Repr

/-- Modelled from the spec: `PendingStatusEffect::calculate_apply_chance`
(spec section 4.3 step 11:
`chance = clamp(status_damage / defender.max_life * (1 + apply_chance_increased), 0, 1)`). -/
def PendingStatusEffect.calculate_apply_chance (p : PendingStatusEffect)
    (target_max_health : ℚ) : ℚ :=
  rclamp (p.status_damage / target_max_health * (1 + p.apply_chance_increased)) 0 1

/-- Modelled from the spec: one attack instance (spec section 3
`DamagePacket`), with the fields `resolve_damage_with_rng` reads. -/
structure DamagePacket where
  source_id : String
  skill_id : String
  damages : List FinalDamage
  is_critical : Bool
  crit_multiplier : ℚ
  fire_pen : ℚ
  cold_pen : ℚ
  lightning_pen : ℚ
  chaos_pen : ℚ
  accuracy : ℚ
  is_spell : Bool
  culling_strike : ℚ
  life_on_kill : ℚ
  mana_on_kill : ℚ
  status_effects_to_apply : List PendingStatusEffect
  hit_count : ℕ
deriving DecidableEq, Repr

/-- Modelled from the spec: `packet.penetration(damage_type)` returns the
per-element penetration; physical damage bypasses the resistance step, and
its entry is 0. -/
def DamagePacket.penetration (p : DamagePacket) (dt : DamageType) : ℚ :=
  match dt with
  | .Physical => 0
  | .Fire => p.fire_pen
  | .Cold => p.cold_pen
  | .Lightning => p.lightning_pen
  | .Chaos => p.chaos_pen

/-- Modelled from the spec: one per-type damage ledger entry of a
`CombatResult` (`DamageTaken::new(damage_type, raw, mitigated, final)`;
`combat/result.rs` is not in src/). -/
structure DamageTaken where
  damage_type : DamageType
  raw_amount : ℚ
  mitigated_amount : ℚ
  final_amount : ℚ
deriving DecidableEq, Repr

/-- Modelled from the spec: the combat ledger (spec section 3
`CombatResult`; `combat/result.rs` is not in src/), with the fields
`resolve_damage_with_rng` writes. -/
structure CombatResult where
  es_before : ℚ
  life_before : ℚ
  es_after : ℚ
  life_after : ℚ
  was_dodged : Bool
  was_blocked : Bool
  triggered_evasion_cap : Bool
  is_killing_blow : Bool
  culled : Bool
  damage_taken : List DamageTaken
  damage_reduced_by_resists : ℚ
  damage_reduced_by_armour : ℚ
  damage_reduced_by_physical_dr : ℚ
  damage_prevented_by_evasion : ℚ
  damage_blocked : ℚ
  damage_reduced_by_dr : ℚ
  damage_blocked_by_es : ℚ
  total_damage : ℚ
  life_gained_on_kill : ℚ
  mana_gained_on_kill : ℚ
  effects_applied : List Effect
deriving DecidableEq, Repr

/-- Modelled from the spec: `CombatResult::new` — an empty ledger. -/
def CombatResult.new : CombatResult where
  es_before := 0
  life_before := 0
  es_after := 0
  life_after := 0
  was_dodged := false
  was_blocked := false
  triggered_evasion_cap := false
  is_killing_blow := false
  culled := false
  damage_taken := []
  damage_reduced_by_resists := 0
  damage_reduced_by_armour := 0
  damage_reduced_by_physical_dr := 0
  damage_prevented_by_evasion := 0
  damage_blocked := 0
  damage_reduced_by_dr := 0
  damage_blocked_by_es := 0
  total_damage := 0
  life_gained_on_kill := 0
  mana_gained_on_kill := 0
  effects_applied := []

/-! ## Armour and evasion helpers (`defense/armour.rs`, `defense/evasion.rs`
are not in src/) -/

/-- Modelled from the spec: `calculate_armour_reduction` (spec section 4.3
step 3: `reduction_ratio = armour / (armour + damage_constant * physical_damage)`,
the physical amount reduced by that ratio; clamped so reduction never turns
damage negative or increases it). -/
def calculate_armour_reduction (ac : ArmourConstants) (armour damage : ℚ) : ℚ :=
  if armour ≤ 0 ∨ damage ≤ 0 then damage
  else
    let reduction_ratio := armour / (armour + ac.damage_constant * damage)
    damage * (1 - reduction_ratio)

/-- Modelled from the spec: `calculate_damage_cap` (spec section 4.3 step 5:
`cap = accuracy / (1 + evasion/scale_factor)`). -/
def calculate_damage_cap (ec : EvasionConstants) (accuracy evasion : ℚ) : ℚ :=
  accuracy / (1 + evasion / ec.scale_factor)

/-- Modelled from the spec: `apply_evasion_cap` returns
`(damage_after_evasion, evaded)`; when the total exceeds the cap the excess
is evaded, otherwise nothing is. When the defender has no evasion or the
attack carries no accuracy the cap mechanic is inert (spec section 4.3:
clamp/early-exit failure semantics; the repository's resolution tests
resolve packets with zero accuracy against zero-evasion defenders without
any evasion). -/
def apply_evasion_cap (ec : EvasionConstants) (accuracy evasion total : ℚ) : ℚ × ℚ :=
  if evasion ≤ 0 ∨ accuracy ≤ 0 then (total, 0)
  else
    let cap := calculate_damage_cap ec accuracy evasion
    if total > cap then (cap, total - cap) else (total, 0)

/-! ## Damage resolution (`combat/resolution.rs`) -/

/-- A deterministic stream of uniform draws standing in for the caller's
RNG; `gen` yields the draw at the cursor and advances it. -/
structure Rng where
  seq : ℕ → ℚ
  pos : ℕ

/-- One `rng.gen::<f64>()` draw. -/
def Rng.gen (g : Rng) : ℚ × Rng := (g.seq g.pos, { g with pos := g.pos + 1 })

/-- Update the first list element satisfying the predicate (the embedding of
`iter_mut().find(..)` followed by a mutation of the found element). -/
def updateFirst (p : α → Bool) (f : α → α) : List α → List α
  | [] => []
  | x :: xs => if p x then f x :: xs else x :: updateFirst p f xs

/-- Rust `status_to_config_id` (`resolution.rs:262-273`). -/
def status_to_config_id (status : StatusEffect) : String :=
  match status with
  | .Poison => "poison"
  | .Bleed => "bleed"
  | .Burn => "burn"
  | .Freeze => "freeze"
  | .Chill => "chill"
  | .Static => "static"
  | .Fear => "fear"
  | .Slow => "slow"

/-- Rust `create_effect_from_status` (`resolution.rs:276-302`): build the
`Effect` from the registry config, falling back to a default ailment shape
(tick rate 0.5, `StrongestOnly`) when the config is missing. -/
def create_effect_from_status (reg : DotRegistry) (status : StatusEffect)
    (duration magnitude dot_dps : ℚ) (source_id : String) : Effect :=
  let config_id := status_to_config_id status
  match reg.get config_id with
  | some config => Effect.from_config config status duration magnitude dot_dps source_id
  | none =>
      Effect.new_ailment config_id config_id status duration magnitude dot_dps (1/2)
        .StrongestOnly source_id

/-- The local variables of one `resolve_damage_with_rng` call frame. The
Rust function takes `defender: &StatBlock` (a shared, immutable borrow) and
`rng: &mut impl Rng`; the frame carries the defender slot explicitly so that
the no-mutation contract is a provable property: every step below writes
only `new_defender`, `result` and `rng`. -/
structure ResolveVars where
  defender : StatBlock
  new_defender : StatBlock
  result : CombatResult
  rng : Rng

namespace Resolve

/-- Store of initial state (`resolution.rs:37-39`). -/
def initResult (v : ResolveVars) : ResolveVars :=
  { v with result := { v.result with
      es_before := v.new_defender.current_energy_shield
      life_before := v.new_defender.current_life } }

/-- One iteration of step 1 (`resolution.rs:53-76`): resistance mitigation
of a single packet damage entry; physical uses armour instead and passes
through here. -/
def step1One (C : GameConstants) (packet : DamagePacket) (v : ResolveVars)
    (final_damage : FinalDamage) : ResolveVars :=
  let raw := final_damage.amount
  let pen := packet.penetration final_damage.damage_type
  let resist := v.new_defender.resistance final_damage.damage_type
  let after_resist :=
    if final_damage.damage_type = .Physical then raw
    else calculate_resistance_mitigation C.resistances raw resist pen
  let mitigated := raw - after_resist
  let v :=
    if mitigated > 0 then
      { v with result := { v.result with
          damage_reduced_by_resists := v.result.damage_reduced_by_resists + mitigated } }
    else v
  { v with result := { v.result with
      damage_taken := v.result.damage_taken ++
        [⟨final_damage.damage_type, raw, fmax mitigated 0, after_resist⟩] } }

/-- Step 1 (`resolution.rs:52-76`): per-type resistance mitigation over all
packet damage entries. -/
def step1Resists (C : GameConstants) (packet : DamagePacket) (v : ResolveVars) : ResolveVars :=
  packet.damages.foldl (step1One C packet) v

/-- Step 2 (`resolution.rs:78-94`): armour applied to the first physical
entry when its amount is positive. -/
def step2Armour (C : GameConstants) (v : ResolveVars) : ResolveVars :=
  match v.result.damage_taken.find? (fun d => d.damage_type == DamageType.Physical) with
  | none => v
  | some phys =>
      if phys.final_amount > 0 then
        let armour := v.new_defender.armour.compute
        let after_armour := calculate_armour_reduction C.armour armour phys.final_amount
        let armour_reduced := phys.final_amount - after_armour
        { v with result := { v.result with
            damage_reduced_by_armour := armour_reduced
            damage_taken := updateFirst (fun d => d.damage_type == DamageType.Physical)
              (fun d => { d with
                  mitigated_amount := d.mitigated_amount + armour_reduced
                  final_amount := after_armour }) v.result.damage_taken } }
      else v

/-- Step 2b (`resolution.rs:96-111`): flat physical damage reduction,
clamped to [0, 90] percent, after armour. -/
def step2bPhysDR (v : ResolveVars) : ResolveVars :=
  let phys_dr := rclamp v.new_defender.physical_damage_reduction 0 90 / 100
  if phys_dr > 0 then
    match v.result.damage_taken.find? (fun d => d.damage_type == DamageType.Physical) with
    | none => v
    | some phys =>
        if phys.final_amount > 0 then
          let reduced := phys.final_amount * phys_dr
          { v with result := { v.result with
              damage_reduced_by_physical_dr := reduced
              damage_taken := updateFirst (fun d => d.damage_type == DamageType.Physical)
                (fun d => { d with
                    mitigated_amount := d.mitigated_amount + reduced
                    final_amount := d.final_amount - reduced }) v.result.damage_taken } }
        else v
  else v

/-- Total of the `final_amount` column of the ledger. -/
def totalFinal (l : List DamageTaken) : ℚ := (l.map (fun d => d.final_amount)).sum

/-- Step 3 (`resolution.rs:113-134`): the evasion one-shot cap; when
anything was evaded, flag it, record the prevented amount, and scale every
entry by the common ratio. -/
def step3Evasion (C : GameConstants) (packet : DamagePacket) (v : ResolveVars) : ResolveVars :=
  let total_before_evasion := totalFinal v.result.damage_taken
  let evasion := v.new_defender.evasion.compute
  let accuracy := packet.accuracy
  let r := apply_evasion_cap C.evasion accuracy evasion total_before_evasion
  let damage_after_evasion := r.1
  let evaded := r.2
  if evaded > 0 then
    let v := { v with result := { v.result with
        triggered_evasion_cap := true
        damage_prevented_by_evasion := evaded } }
    if total_before_evasion > 0 then
      let ratio := damage_after_evasion / total_before_evasion
      { v with result := { v.result with
          damage_taken := v.result.damage_taken.map (fun damage =>
            { damage with
                mitigated_amount := damage.mitigated_amount + damage.final_amount * (1 - ratio)
                final_amount := damage.final_amount * ratio }) } }
    else v
  else v

/-- Step 3b (`resolution.rs:136-153`): block; the roll is drawn only when
the block chance is positive, and the blocked amount is spread
proportionally. -/
def step3bBlock (v : ResolveVars) : ResolveVars :=
  let block_chance := v.new_defender.computed_block_chance / 100
  if block_chance > 0 then
    let roll := v.rng.gen
    let v := { v with rng := roll.2 }
    if roll.1 < block_chance then
      let block_amount := v.new_defender.computed_block_amount
      let v := { v with result := { v.result with
          was_blocked := true
          damage_blocked := block_amount } }
      let total_pre_block := totalFinal v.result.damage_taken
      if total_pre_block > 0 ∧ block_amount > 0 then
        let block_ratio := fmin (block_amount / total_pre_block) 1
        { v with result := { v.result with
            damage_taken := v.result.damage_taken.map (fun damage =>
              { damage with
                  mitigated_amount := damage.mitigated_amount + damage.final_amount * block_ratio
                  final_amount := damage.final_amount - damage.final_amount * block_ratio }) } }
      else v
    else v
  else v

/-- Step 3c (`resolution.rs:155-166`): global reduced-damage-taken, clamped
to [0, 90] percent, as a final proportional multiplier. -/
def step3cReducedTaken (v : ResolveVars) : ResolveVars :=
  let dr := rclamp v.new_defender.reduced_damage_taken 0 90 / 100
  if dr > 0 then
    let total_pre_dr := totalFinal v.result.damage_taken
    let v : ResolveVars := { v with result := { v.result with
        damage_taken := v.result.damage_taken.map (fun damage =>
          { damage with
              mitigated_amount := damage.mitigated_amount + damage.final_amount * dr
              final_amount := damage.final_amount - damage.final_amount * dr }) } }
    { v with result := { v.result with
        damage_reduced_by_dr := total_pre_dr - totalFinal v.result.damage_taken } }
  else v

/-- Total-damage recomputation (`resolution.rs:168-169`). -/
def stepTotal (v : ResolveVars) : ResolveVars :=
  { v with result := { v.result with total_damage := totalFinal v.result.damage_taken } }

/-- Step 4 (`resolution.rs:171-191`): the final total hits energy shield
first, the remainder hits life, and non-positive life is clamped to 0 with
the killing-blow flag raised. -/
def step4ApplyDamage (v : ResolveVars) : ResolveVars :=
  let remaining_damage := v.result.total_damage
  let es := v.new_defender.current_energy_shield
  let v :=
    if es > 0 ∧ remaining_damage > 0 then
      let es_absorbed := fmin remaining_damage es
      { v with
        new_defender := { v.new_defender with current_energy_shield := es - es_absorbed }
        result := { v.result with damage_blocked_by_es := es_absorbed } }
    else v
  let remaining_damage :=
    if es > 0 ∧ remaining_damage > 0 then remaining_damage - fmin remaining_damage es
    else remaining_damage
  let v :=
    if remaining_damage > 0 then
      { v with new_defender := { v.new_defender with
          current_life := v.new_defender.current_life - remaining_damage } }
    else v
  if v.new_defender.current_life ≤ 0 then
    { v with
      result := { v.result with is_killing_blow := true }
      new_defender := { v.new_defender with current_life := 0 } }
  else v

/-- Step 4b (`resolution.rs:193-201`): culling strike. -/
def step4bCulling (packet : DamagePacket) (v : ResolveVars) : ResolveVars :=
  if ¬v.result.is_killing_blow ∧ packet.culling_strike > 0 then
    let lp := v.new_defender.life_percent
    if lp > 0 ∧ lp ≤ packet.culling_strike then
      { v with
        result := { v.result with is_killing_blow := true, culled := true }
        new_defender := { v.new_defender with current_life := 0 } }
    else v
  else v

/-- Step 4c (`resolution.rs:203-207`): on a killing blow, copy the on-kill
recovery amounts into the result. -/
def step4cOnKill (packet : DamagePacket) (v : ResolveVars) : ResolveVars :=
  if v.result.is_killing_blow then
    { v with result := { v.result with
        life_gained_on_kill := packet.life_on_kill
        mana_gained_on_kill := packet.mana_on_kill } }
  else v

/-- Final-state store (`resolution.rs:209-211`). -/
def storeFinal (v : ResolveVars) : ResolveVars :=
  { v with result := { v.result with
      es_after := v.new_defender.current_energy_shield
      life_after := v.new_defender.current_life } }

/-- One pending status effect of step 5 (`resolution.rs:215-256`): buildup
mode accumulates and applies when the threshold is reached, subtracting one
threshold; otherwise a chance roll decides; an applied effect goes through
`add_effect` and onto the result's applied list. -/
def step5One (reg : DotRegistry) (packet : DamagePacket) (target_max_health : ℚ)
    (v : ResolveVars) (pending_status : PendingStatusEffect) : ResolveVars :=
  let config := reg.get (status_to_config_id pending_status.effect_type)
  let decision : Bool × ResolveVars :=
    match config.map (fun c => c.application) with
    | some (StatusApplication.Buildup threshold) =>
        let buildup := v.new_defender.status_buildup pending_status.effect_type
          + pending_status.status_damage
        if buildup ≥ threshold then
          (true, { v with new_defender := { v.new_defender with
            status_buildup := fun s =>
              if s = pending_status.effect_type then buildup - threshold
              else v.new_defender.status_buildup s } })
        else
          (false, { v with new_defender := { v.new_defender with
            status_buildup := fun s =>
              if s = pending_status.effect_type then buildup
              else v.new_defender.status_buildup s } })
    | _ =>
        let apply_chance := pending_status.calculate_apply_chance target_max_health
        let roll := v.rng.gen
        (decide (roll.1 < apply_chance), { v with rng := roll.2 })
  let should_apply := decision.1
  let v := decision.2
  if should_apply then
    let effect := create_effect_from_status reg pending_status.effect_type
      pending_status.duration pending_status.magnitude pending_status.dot_dps
      packet.source_id
    { v with
      new_defender := v.new_defender.add_effect effect
      result := { v.result with effects_applied := v.result.effects_applied ++ [effect] } }
  else v

/-- Step 5 (`resolution.rs:213-256`): process every pending status request
in order; the target max health is read once before the loop. -/
def step5Status (reg : DotRegistry) (packet : DamagePacket) (v : ResolveVars) : ResolveVars :=
  let target_max_health := v.new_defender.computed_max_life
  packet.status_effects_to_apply.foldl (step5One reg packet target_max_health) v

end Resolve

open Resolve in
/-- Steps 1 through 5 of `resolve_damage_with_rng` (`resolution.rs:52-256`),
run when the spell-dodge check did not return early. -/
def resolveRest (C : GameConstants) (reg : DotRegistry) (packet : DamagePacket)
    (v : ResolveVars) : ResolveVars :=
  let v := step1Resists C packet v
  let v := step2Armour C v
  let v := step2bPhysDR v
  let v := step3Evasion C packet v
  let v := step3bBlock v
  let v := step3cReducedTaken v
  let v := stepTotal v
  let v := step4ApplyDamage v
  let v := step4bCulling packet v
  let v := step4cOnKill packet v
  let v := storeFinal v
  let v := step5Status reg packet v
  v

open Resolve in
/-- Rust `resolve_damage_with_rng` (`resolution.rs:29-259`) on an explicit
call frame: `new_defender` starts as `defender.clone()`, the spell-dodge
check (which draws from the RNG only when the packet is a spell and the
dodge chance is positive) may return early, and otherwise the pipeline steps
run in order. The source reads the process-wide `constants()` and
`dot_registry()` globals; the embedding passes them explicitly. -/
def resolveDamageFrame (C : GameConstants) (reg : DotRegistry) (packet : DamagePacket)
    (v : ResolveVars) : ResolveVars :=
  let v := { v with new_defender := v.defender }
  let v := initResult v
  if packet.is_spell then
    let dodge_chance := v.new_defender.computed_spell_dodge_chance / 100
    if dodge_chance > 0 then
      let roll := v.rng.gen
      let v := { v with rng := roll.2 }
      if roll.1 < dodge_chance then
        { v with result := { v.result with
            was_dodged := true
            es_after := v.new_defender.current_energy_shield
            life_after := v.new_defender.current_life } }
      else resolveRest C reg packet v
    else resolveRest C reg packet v
  else resolveRest C reg packet v

/-- Rust `resolve_damage_with_rng` as the pure function
`(defender, packet, rng) → (new_defender, result, rng)`. -/
def resolve_damage_with_rng (C : GameConstants) (reg : DotRegistry) (defender : StatBlock)
    (packet : DamagePacket) (rng : Rng) : StatBlock × CombatResult × Rng :=
  let v := resolveDamageFrame C reg packet
    { defender := defender, new_defender := defender, result := CombatResult.new, rng := rng }
  (v.new_defender, v.result, v.rng)

/-! ## Pointwise accumulator addition (proof infrastructure for order
independence: every `apply_stat_type` arm is an additive update, so an
application decomposes as adding the delta it would produce on a fresh
accumulator) -/

/-- Pointwise sum of two `StatusEffectStats`. -/
def addStats (x y : StatusEffectStats) : StatusEffectStats :=
  { dot_increased := x.dot_increased + y.dot_increased
    duration_increased := x.duration_increased + y.duration_increased
    magnitude := x.magnitude + y.magnitude
    max_stacks := x.max_stacks + y.max_stacks }

/-- Pointwise sum of two `StatusConversions`. -/
def addConv (x y : StatusConversions) : StatusConversions :=
  ⟨fun d => x.conversions d + y.conversions d⟩

/-- Pointwise sum of two accumulators: rational fields add, list fields
append, key sets unite, status maps add pointwise. -/
def accAdd (a d : StatAccumulator) : StatAccumulator where
  life_flat := a.life_flat + d.life_flat
  life_increased := a.life_increased + d.life_increased
  life_more := a.life_more ++ d.life_more
  mana_flat := a.mana_flat + d.mana_flat
  mana_increased := a.mana_increased + d.mana_increased
  mana_more := a.mana_more ++ d.mana_more
  strength_flat := a.strength_flat + d.strength_flat
  dexterity_flat := a.dexterity_flat + d.dexterity_flat
  intelligence_flat := a.intelligence_flat + d.intelligence_flat
  constitution_flat := a.constitution_flat + d.constitution_flat
  wisdom_flat := a.wisdom_flat + d.wisdom_flat
  charisma_flat := a.charisma_flat + d.charisma_flat
  all_attributes_flat := a.all_attributes_flat + d.all_attributes_flat
  armour_flat := a.armour_flat + d.armour_flat
  armour_increased := a.armour_increased + d.armour_increased
  evasion_flat := a.evasion_flat + d.evasion_flat
  evasion_increased := a.evasion_increased + d.evasion_increased
  energy_shield_flat := a.energy_shield_flat + d.energy_shield_flat
  energy_shield_increased := a.energy_shield_increased + d.energy_shield_increased
  fire_resistance := a.fire_resistance + d.fire_resistance
  cold_resistance := a.cold_resistance + d.cold_resistance
  lightning_resistance := a.lightning_resistance + d.lightning_resistance
  chaos_resistance := a.chaos_resistance + d.chaos_resistance
  all_resistances := a.all_resistances + d.all_resistances
  physical_damage_flat := a.physical_damage_flat + d.physical_damage_flat
  physical_damage_increased := a.physical_damage_increased + d.physical_damage_increased
  physical_damage_more := a.physical_damage_more ++ d.physical_damage_more
  fire_damage_flat := a.fire_damage_flat + d.fire_damage_flat
  fire_damage_increased := a.fire_damage_increased + d.fire_damage_increased
  fire_damage_more := a.fire_damage_more ++ d.fire_damage_more
  cold_damage_flat := a.cold_damage_flat + d.cold_damage_flat
  cold_damage_increased := a.cold_damage_increased + d.cold_damage_increased
  cold_damage_more := a.cold_damage_more ++ d.cold_damage_more
  lightning_damage_flat := a.lightning_damage_flat + d.lightning_damage_flat
  lightning_damage_increased := a.lightning_damage_increased + d.lightning_damage_increased
  lightning_damage_more := a.lightning_damage_more ++ d.lightning_damage_more
  chaos_damage_flat := a.chaos_damage_flat + d.chaos_damage_flat
  chaos_damage_increased := a.chaos_damage_increased + d.chaos_damage_increased
  chaos_damage_more := a.chaos_damage_more ++ d.chaos_damage_more
  elemental_damage_increased := a.elemental_damage_increased + d.elemental_damage_increased
  attack_speed_increased := a.attack_speed_increased + d.attack_speed_increased
  cast_speed_increased := a.cast_speed_increased + d.cast_speed_increased
  critical_chance_flat := a.critical_chance_flat + d.critical_chance_flat
  critical_chance_increased := a.critical_chance_increased + d.critical_chance_increased
  critical_multiplier_flat := a.critical_multiplier_flat + d.critical_multiplier_flat
  fire_penetration := a.fire_penetration + d.fire_penetration
  cold_penetration := a.cold_penetration + d.cold_penetration
  lightning_penetration := a.lightning_penetration + d.lightning_penetration
  chaos_penetration := a.chaos_penetration + d.chaos_penetration
  life_regen_flat := a.life_regen_flat + d.life_regen_flat
  mana_regen_flat := a.mana_regen_flat + d.mana_regen_flat
  life_leech_percent := a.life_leech_percent + d.life_leech_percent
  mana_leech_percent := a.mana_leech_percent + d.mana_leech_percent
  life_on_hit := a.life_on_hit + d.life_on_hit
  accuracy_flat := a.accuracy_flat + d.accuracy_flat
  accuracy_increased := a.accuracy_increased + d.accuracy_increased
  movement_speed_increased := a.movement_speed_increased + d.movement_speed_increased
  item_rarity_increased := a.item_rarity_increased + d.item_rarity_increased
  item_quantity_increased := a.item_quantity_increased + d.item_quantity_increased
  weapon_physical_min := a.weapon_physical_min + d.weapon_physical_min
  weapon_physical_max := a.weapon_physical_max + d.weapon_physical_max
  weapon_physical_increased := a.weapon_physical_increased + d.weapon_physical_increased
  weapon_elemental_damages := a.weapon_elemental_damages ++ d.weapon_elemental_damages
  weapon_attack_speed := a.weapon_attack_speed + d.weapon_attack_speed
  weapon_crit_chance := a.weapon_crit_chance + d.weapon_crit_chance
  status_stats := fun s => addStats (a.status_stats s) (d.status_stats s)
  status_stats_keys := a.status_stats_keys ∪ d.status_stats_keys
  status_conversions := fun s => addConv (a.status_conversions s) (d.status_conversions s)
  status_conversions_keys := a.status_conversions_keys ∪ d.status_conversions_keys

/-- One `(stat, value)` modifier applied to an accumulator, the step
function of a modifier list fold. -/
def applyPair (acc : StatAccumulator) (p : StatType × ℚ) : StatAccumulator :=
  acc.apply_stat_type p.1 p.2

/-! ## Concrete fixtures -/

/-- A `StatBlock` with every stat zero, no resources and no effects. -/
def emptyStatBlock : StatBlock where
  max_life := StatValue.zero
  max_mana := StatValue.zero
  strength := StatValue.zero
  dexterity := StatValue.zero
  intelligence := StatValue.zero
  constitution := StatValue.zero
  wisdom := StatValue.zero
  charisma := StatValue.zero
  armour := StatValue.zero
  evasion := StatValue.zero
  fire_resistance := StatValue.zero
  cold_resistance := StatValue.zero
  lightning_resistance := StatValue.zero
  chaos_resistance := StatValue.zero
  global_physical_damage := StatValue.zero
  global_fire_damage := StatValue.zero
  global_cold_damage := StatValue.zero
  global_lightning_damage := StatValue.zero
  global_chaos_damage := StatValue.zero
  attack_speed := StatValue.zero
  cast_speed := StatValue.zero
  critical_chance := StatValue.zero
  critical_multiplier := StatValue.zero
  fire_penetration := StatValue.zero
  cold_penetration := StatValue.zero
  lightning_penetration := StatValue.zero
  chaos_penetration := StatValue.zero
  life_regen := StatValue.zero
  mana_regen := StatValue.zero
  life_leech := StatValue.zero
  mana_leech := StatValue.zero
  accuracy := StatValue.zero
  weapon_physical_min := 0
  weapon_physical_max := 0
  weapon_fire_min := 0
  weapon_fire_max := 0
  weapon_cold_min := 0
  weapon_cold_max := 0
  weapon_lightning_min := 0
  weapon_lightning_max := 0
  weapon_chaos_min := 0
  weapon_chaos_max := 0
  weapon_attack_speed := 0
  weapon_crit_chance := 0
  movement_speed_increased := 0
  item_rarity_increased := 0
  item_quantity_increased := 0
  status_effect_stats := StatusEffectData.empty
  current_life := 0
  current_energy_shield := 0
  max_energy_shield := 0
  physical_damage_reduction := 0
  reduced_damage_taken := 0
  spell_dodge_chance := 0
  block_chance := 0
  block_amount := 0
  status_buildup := fun _ => 0
  effects := []

/-- A default-valued packet carrying one list of damages (mirrors the test
helper `make_test_packet`). -/
def makeTestPacket (damages : List FinalDamage) : DamagePacket where
  source_id := "attacker"
  skill_id := "test_skill"
  damages := damages
  is_critical := false
  crit_multiplier := 1
  fire_pen := 0
  cold_pen := 0
  lightning_pen := 0
  chaos_pen := 0
  accuracy := 0
  is_spell := false
  culling_strike := 0
  life_on_kill := 0
  mana_on_kill := 0
  status_effects_to_apply := []
  hit_count := 1

/-- An RNG whose draws are all zero (unused by the deterministic fixtures). -/
def rngZero : Rng := ⟨fun _ => 0, 0⟩

/-- The ES-before-life fixture: energy shield 50 (max 50), life 100
(`test_es_absorbs_first`). -/
def defenderES : StatBlock :=
  { emptyStatBlock with
      current_life := 100
      current_energy_shield := 50
      max_energy_shield := 50 }

/-- A 75 fire damage packet. -/
def packetFire75 : DamagePacket := makeTestPacket [⟨DamageType.Fire, 75⟩]

/-- The evasion-cap fixture: 1000 base evasion, life 10000
(`test_evasion_cap`). -/
def defenderEva : StatBlock :=
  { emptyStatBlock with
      current_life := 10000
      evasion := { StatValue.zero with base := 1000 } }

/-- A 1500 fire damage packet with 2000 accuracy. -/
def packetFire1500 : DamagePacket :=
  { makeTestPacket [⟨DamageType.Fire, 1500⟩] with accuracy := 2000 }

/-- An accumulator holding only `all_resistances = 10`. -/
def accAllRes : StatAccumulator := { StatAccumulator.new with all_resistances := 10 }

/-- A buildup-mode poison configuration with threshold 100. -/
def poisonBuildupConfig : DotConfig where
  id := "poison"
  name := "Poison"
  damage_type := DamageType.Chaos
  base_duration := 2
  base_damage_percent := 1/5
  tick_rate := 1/3
  moving_multiplier := 1
  stacking := DotStacking.Unlimited
  max_stacks := 999
  application := StatusApplication.Buildup 100

/-- A registry holding only the buildup poison config. -/
def buildupRegistry : DotRegistry := DotRegistry.new.register poisonBuildupConfig

/-- A pending poison request with a given status damage. -/
def pendingPoison (dmg : ℚ) : PendingStatusEffect where
  effect_type := StatusEffect.Poison
  status_damage := dmg
  duration := 2
  magnitude := 1
  dot_dps := 5
  apply_chance_increased := 0

/-- A concrete burning ailment: 10 DPS, tick rate 1, 5 seconds left, next
tick due in 1 second. -/
def burnEffect : Effect where
  id := "burn"
  name := "Burn"
  effect_type := EffectType.Ailment StatusEffect.Burn 1 10 1 1 AilmentStacking.StrongestOnly 1
  duration_remaining := 5
  total_duration := 5
  stacks' := 1
  max_stacks := 999
  source_id := "attacker"

/-- A frame fixture for the energy-shield application step: defender with
ES 50 and life 100, ledger already carrying a final total of 75. -/
def esFrameFix : ResolveVars where
  defender := defenderES
  new_defender := defenderES
  result := { CombatResult.new with total_damage := 75 }
  rng := rngZero

/-- Pipeline state of the evasion fixture after the initial-state store. -/
def vE1 : ResolveVars :=
  { defender := defenderEva, new_defender := defenderEva
    result := { CombatResult.new with es_before := 0, life_before := 10000 }
    rng := rngZero }

/-- Pipeline state of the evasion fixture after resistance mitigation. -/
def vE2 : ResolveVars :=
  { vE1 with result := { vE1.result with
      damage_taken := [⟨DamageType.Fire, 1500, 0, 1500⟩] } }

/-- Pipeline state of the evasion fixture after the evasion cap. -/
def vE3 : ResolveVars :=
  { vE2 with result := { vE2.result with
      triggered_evasion_cap := true
      damage_prevented_by_evasion := 500
      damage_taken := [⟨DamageType.Fire, 1500, 500, 1000⟩] } }

/-- Pipeline state of the evasion fixture after the total recomputation. -/
def vE4 : ResolveVars :=
  { vE3 with result := { vE3.result with total_damage := 1000 } }

/-- Pipeline state of the evasion fixture after damage application. -/
def vE5 : ResolveVars :=
  { vE4 with new_defender := { defenderEva with current_life := 9000 } }

/-- Pipeline state of the evasion fixture after the final-state store. -/
def vE6 : ResolveVars :=
  { vE5 with result := { vE5.result with es_after := 0, life_after := 9000 } }

/-- The burning ailment of `burnEffect` after `tick 3`: three catch-up ticks
fire, the cursor returns to 1, and 3 seconds of duration are consumed. -/
def burnEffectAfter : Effect :=
  { burnEffect with duration_remaining := 2 }

/-- An ailment with a zero tick rate and an already-due tick: the Rust
catch-up loop never exits on it. -/
def stuckEffect : Effect where
  id := "stuck"
  name := "Stuck"
  effect_type := EffectType.Ailment StatusEffect.Burn 1 10 0 0 AilmentStacking.StrongestOnly 1
  duration_remaining := 5
  total_duration := 5
  stacks' := 1
  max_stacks := 999
  source_id := "attacker"

attribute [ext] StatValue StatusEffectStats StatusConversions StatusEffectData

/-! # Theorems -/

/-- Field-wise extensionality for `StatAccumulator`, stated with a shallow
proof term. -/
@[ext] theorem StatAccumulator.ext' {a b : StatAccumulator}
    (h1 : a.life_flat = b.life_flat)
    (h2 : a.life_increased = b.life_increased)
    (h3 : a.life_more = b.life_more)
    (h4 : a.mana_flat = b.mana_flat)
    (h5 : a.mana_increased = b.mana_increased)
    (h6 : a.mana_more = b.mana_more)
    (h7 : a.strength_flat = b.strength_flat)
    (h8 : a.dexterity_flat = b.dexterity_flat)
    (h9 : a.intelligence_flat = b.intelligence_flat)
    (h10 : a.constitution_flat = b.constitution_flat)
    (h11 : a.wisdom_flat = b.wisdom_flat)
    (h12 : a.charisma_flat = b.charisma_flat)
    (h13 : a.all_attributes_flat = b.all_attributes_flat)
    (h14 : a.armour_flat = b.armour_flat)
    (h15 : a.armour_increased = b.armour_increased)
    (h16 : a.evasion_flat = b.evasion_flat)
    (h17 : a.evasion_increased = b.evasion_increased)
    (h18 : a.energy_shield_flat = b.energy_shield_flat)
    (h19 : a.energy_shield_increased = b.energy_shield_increased)
    (h20 : a.fire_resistance = b.fire_resistance)
    (h21 : a.cold_resistance = b.cold_resistance)
    (h22 : a.lightning_resistance = b.lightning_resistance)
    (h23 : a.chaos_resistance = b.chaos_resistance)
    (h24 : a.all_resistances = b.all_resistances)
    (h25 : a.physical_damage_flat = b.physical_damage_flat)
    (h26 : a.physical_damage_increased = b.physical_damage_increased)
    (h27 : a.physical_damage_more = b.physical_damage_more)
    (h28 : a.fire_damage_flat = b.fire_damage_flat)
    (h29 : a.fire_damage_increased = b.fire_damage_increased)
    (h30 : a.fire_damage_more = b.fire_damage_more)
    (h31 : a.cold_damage_flat = b.cold_damage_flat)
    (h32 : a.cold_damage_increased = b.cold_damage_increased)
    (h33 : a.cold_damage_more = b.cold_damage_more)
    (h34 : a.lightning_damage_flat = b.lightning_damage_flat)
    (h35 : a.lightning_damage_increased = b.lightning_damage_increased)
    (h36 : a.lightning_damage_more = b.lightning_damage_more)
    (h37 : a.chaos_damage_flat = b.chaos_damage_flat)
    (h38 : a.chaos_damage_increased = b.chaos_damage_increased)
    (h39 : a.chaos_damage_more = b.chaos_damage_more)
    (h40 : a.elemental_damage_increased = b.elemental_damage_increased)
    (h41 : a.attack_speed_increased = b.attack_speed_increased)
    (h42 : a.cast_speed_increased = b.cast_speed_increased)
    (h43 : a.critical_chance_flat = b.critical_chance_flat)
    (h44 : a.critical_chance_increased = b.critical_chance_increased)
    (h45 : a.critical_multiplier_flat = b.critical_multiplier_flat)
    (h46 : a.fire_penetration = b.fire_penetration)
    (h47 : a.cold_penetration = b.cold_penetration)
    (h48 : a.lightning_penetration = b.lightning_penetration)
    (h49 : a.chaos_penetration = b.chaos_penetration)
    (h50 : a.life_regen_flat = b.life_regen_flat)
    (h51 : a.mana_regen_flat = b.mana_regen_flat)
    (h52 : a.life_leech_percent = b.life_leech_percent)
    (h53 : a.mana_leech_percent = b.mana_leech_percent)
    (h54 : a.life_on_hit = b.life_on_hit)
    (h55 : a.accuracy_flat = b.accuracy_flat)
    (h56 : a.accuracy_increased = b.accuracy_increased)
    (h57 : a.movement_speed_increased = b.movement_speed_increased)
    (h58 : a.item_rarity_increased = b.item_rarity_increased)
    (h59 : a.item_quantity_increased = b.item_quantity_increased)
    (h60 : a.weapon_physical_min = b.weapon_physical_min)
    (h61 : a.weapon_physical_max = b.weapon_physical_max)
    (h62 : a.weapon_physical_increased = b.weapon_physical_increased)
    (h63 : a.weapon_elemental_damages = b.weapon_elemental_damages)
    (h64 : a.weapon_attack_speed = b.weapon_attack_speed)
    (h65 : a.weapon_crit_chance = b.weapon_crit_chance)
    (h66 : a.status_stats = b.status_stats)
    (h67 : a.status_stats_keys = b.status_stats_keys)
    (h68 : a.status_conversions = b.status_conversions)
    (h69 : a.status_conversions_keys = b.status_conversions_keys)
    : a = b := by
  cases a
  cases b
  simp only [StatAccumulator.mk.injEq]
  exact ⟨h1, h2, h3, h4, h5, h6, h7, h8, h9, h10, h11, h12, h13, h14, h15,
    h16, h17, h18, h19, h20, h21, h22, h23, h24, h25, h26, h27, h28, h29,
    h30, h31, h32, h33, h34, h35, h36, h37, h38, h39, h40, h41, h42, h43,
    h44, h45, h46, h47, h48, h49, h50, h51, h52, h53, h54, h55, h56, h57,
    h58, h59, h60, h61, h62, h63, h64, h65, h66, h67, h68, h69⟩

/-- C2: with the default resistance constants, `mitigate(100, 50, 0) = 50`,
`mitigate(100, -50, 0) = 150`, `mitigate(100, 100, 0) = 0`; against capped
resistance penetration has half effectiveness
(`effective_resist(100, 30) = 85`, `mitigate(100, 100, 30) = 15`); against
uncapped resistance the effective resistance is the resistance minus the
full penetration, clamped to `[min_value, max_cap]`. -/
theorem resistance_mitigation_matches_spec :
    calculate_resistance_mitigation ResistanceConstants.default 100 50 0 = 50 ∧
    calculate_resistance_mitigation ResistanceConstants.default 100 (-50) 0 = 150 ∧
    calculate_resistance_mitigation ResistanceConstants.default 100 100 0 = 0 ∧
    calculate_effective_resistance ResistanceConstants.default 100 30 = 85 ∧
    calculate_resistance_mitigation ResistanceConstants.default 100 100 30 = 15 ∧
    (∀ resistance penetration : ℚ,
      ResistanceConstants.default.min_value ≤ resistance →
      resistance < ResistanceConstants.default.max_cap →
      calculate_effective_resistance ResistanceConstants.default resistance penetration =
        rclamp (resistance - penetration) ResistanceConstants.default.min_value
          ResistanceConstants.default.max_cap) := by
  refine ⟨?_, ?_, ?_, ?_, ?_, ?_⟩
  case _ => norm_num [calculate_resistance_mitigation, calculate_effective_resistance,
    rclamp, fmax, ResistanceConstants.default]
  case _ => norm_num [calculate_resistance_mitigation, calculate_effective_resistance,
    rclamp, fmax, ResistanceConstants.default]
  case _ => norm_num [calculate_resistance_mitigation, calculate_effective_resistance,
    rclamp, fmax, ResistanceConstants.default]
  case _ => norm_num [calculate_effective_resistance, rclamp, ResistanceConstants.default]
  case _ => norm_num [calculate_resistance_mitigation, calculate_effective_resistance,
    rclamp, fmax, ResistanceConstants.default]
  intro resistance penetration hmin hmax
  have hclamp : rclamp resistance ResistanceConstants.default.min_value
      ResistanceConstants.default.max_cap = resistance := by
    unfold rclamp
    rw [if_neg (not_lt.mpr hmin), if_neg (not_lt.mpr (le_of_lt hmax))]
  unfold calculate_effective_resistance
  simp only [hclamp, ge_iff_le, if_neg (not_le.mpr hmax)]

/-- Witness for the uncapped-resistance clause of C2 at resistance 75,
penetration 25. -/
theorem resistance_mitigation_matches_spec_witness :
    calculate_effective_resistance ResistanceConstants.default 75 25 =
      rclamp (75 - 25) ResistanceConstants.default.min_value
        ResistanceConstants.default.max_cap :=
  resistance_mitigation_matches_spec.2.2.2.2.2 75 25 (by norm_num [ResistanceConstants.default])
    (by norm_num [ResistanceConstants.default])

/-- C7 counterexample: a second initialization of the DoT registry is NOT
surfaced as a failure — `init_dot_registry` on an already-initialized
registry state returns `Ok(())` (and silently keeps the first registry), because
the source discards the `OnceLock::set` error with `.ok()`. -/
theorem init_dot_registry_second_init_silently_ok :
    init_dot_registry (Except.ok (DotRegistry.new.register poisonBuildupConfig))
      (some DotRegistry.new) = (Except.ok (), some DotRegistry.new) := rfl

/-- C7 (amended): reads before initialization fail loudly for both
registries, and a second `init_constants` is an error — but a second
`init_dot_registry` returns `Ok(())` and keeps the first registry. -/
theorem config_registry_lifecycle :
    (∀ c g : GameConstants,
      init_constants (Except.ok c) (some g) =
        (Except.error "GameConstants already initialized", some g)) ∧
    constants none = Except.error
      "GameConstants not initialized - call init_constants() or init_constants_default() first" ∧
    dot_registry none = Except.error
      "DoT registry not initialized. Call init_dot_registry() first." ∧
    (∀ r g : DotRegistry,
      init_dot_registry (Except.ok r) (some g) = (Except.ok (), some g)) ∧
    (∀ c : GameConstants, init_constants (Except.ok c) none = (Except.ok (), some c)) ∧
    (∀ r : DotRegistry, init_dot_registry (Except.ok r) none = (Except.ok (), some r)) :=
  ⟨fun _ _ => rfl, rfl, rfl, fun _ _ => rfl, fun _ => rfl, fun _ => rfl⟩

/-! ## C8: commit folding of all-resistances / all-attributes -/

theorem foldlWeapon_fire_resistance :
    ∀ (l : List (DamageType × ℚ × ℚ)) (b : StatBlock),
      (l.foldl applyWeaponElemental b).fire_resistance = b.fire_resistance := by
  intro l
  induction l with
  | nil => intro b; rfl
  | cons x xs ih =>
      intro b
      rw [List.foldl_cons, ih]
      rcases x with ⟨dt, mn, mx⟩
      cases dt <;> rfl

theorem foldlWeapon_cold_resistance :
    ∀ (l : List (DamageType × ℚ × ℚ)) (b : StatBlock),
      (l.foldl applyWeaponElemental b).cold_resistance = b.cold_resistance := by
  intro l
  induction l with
  | nil => intro b; rfl
  | cons x xs ih =>
      intro b
      rw [List.foldl_cons, ih]
      rcases x with ⟨dt, mn, mx⟩
      cases dt <;> rfl

theorem foldlWeapon_lightning_resistance :
    ∀ (l : List (DamageType × ℚ × ℚ)) (b : StatBlock),
      (l.foldl applyWeaponElemental b).lightning_resistance = b.lightning_resistance := by
  intro l
  induction l with
  | nil => intro b; rfl
  | cons x xs ih =>
      intro b
      rw [List.foldl_cons, ih]
      rcases x with ⟨dt, mn, mx⟩
      cases dt <;> rfl

theorem foldlWeapon_chaos_resistance :
    ∀ (l : List (DamageType × ℚ × ℚ)) (b : StatBlock),
      (l.foldl applyWeaponElemental b).chaos_resistance = b.chaos_resistance := by
  intro l
  induction l with
  | nil => intro b; rfl
  | cons x xs ih =>
      intro b
      rw [List.foldl_cons, ih]
      rcases x with ⟨dt, mn, mx⟩
      cases dt <;> rfl

theorem foldlWeapon_strength :
    ∀ (l : List (DamageType × ℚ × ℚ)) (b : StatBlock),
      (l.foldl applyWeaponElemental b).strength = b.strength := by
  intro l
  induction l with
  | nil => intro b; rfl
  | cons x xs ih =>
      intro b
      rw [List.foldl_cons, ih]
      rcases x with ⟨dt, mn, mx⟩
      cases dt <;> rfl

theorem foldlWeapon_dexterity :
    ∀ (l : List (DamageType × ℚ × ℚ)) (b : StatBlock),
      (l.foldl applyWeaponElemental b).dexterity = b.dexterity := by
  intro l
  induction l with
  | nil => intro b; rfl
  | cons x xs ih =>
      intro b
      rw [List.foldl_cons, ih]
      rcases x with ⟨dt, mn, mx⟩
      cases dt <;> rfl

theorem foldlWeapon_intelligence :
    ∀ (l : List (DamageType × ℚ × ℚ)) (b : StatBlock),
      (l.foldl applyWeaponElemental b).intelligence = b.intelligence := by
  intro l
  induction l with
  | nil => intro b; rfl
  | cons x xs ih =>
      intro b
      rw [List.foldl_cons, ih]
      rcases x with ⟨dt, mn, mx⟩
      cases dt <;> rfl

theorem foldlWeapon_constitution :
    ∀ (l : List (DamageType × ℚ × ℚ)) (b : StatBlock),
      (l.foldl applyWeaponElemental b).constitution = b.constitution := by
  intro l
  induction l with
  | nil => intro b; rfl
  | cons x xs ih =>
      intro b
      rw [List.foldl_cons, ih]
      rcases x with ⟨dt, mn, mx⟩
      cases dt <;> rfl

theorem foldlWeapon_wisdom :
    ∀ (l : List (DamageType × ℚ × ℚ)) (b : StatBlock),
      (l.foldl applyWeaponElemental b).wisdom = b.wisdom := by
  intro l
  induction l with
  | nil => intro b; rfl
  | cons x xs ih =>
      intro b
      rw [List.foldl_cons, ih]
      rcases x with ⟨dt, mn, mx⟩
      cases dt <;> rfl

theorem foldlWeapon_charisma :
    ∀ (l : List (DamageType × ℚ × ℚ)) (b : StatBlock),
      (l.foldl applyWeaponElemental b).charisma = b.charisma := by
  intro l
  induction l with
  | nil => intro b; rfl
  | cons x xs ih =>
      intro b
      rw [List.foldl_cons, ih]
      rcases x with ⟨dt, mn, mx⟩
      cases dt <;> rfl

/-- C8 counterexample: with `all_resistances = 10` and no specific chaos
delta, the claim predicts that chaos resistance receives `0 + 10 = 10`
flat; the committed block's chaos resistance receives only its own delta,
i.e. `0`, while fire, cold and lightning do receive `10`. -/
theorem apply_to_chaos_omits_all_resistances :
    accAllRes.all_resistances = 10 ∧
    accAllRes.chaos_resistance = 0 ∧
    (accAllRes.apply_to emptyStatBlock).chaos_resistance.flat = 0 ∧
    (accAllRes.apply_to emptyStatBlock).chaos_resistance.flat ≠
      emptyStatBlock.chaos_resistance.flat + accAllRes.chaos_resistance
        + accAllRes.all_resistances ∧
    (accAllRes.apply_to emptyStatBlock).fire_resistance.flat = 10 ∧
    (accAllRes.apply_to emptyStatBlock).cold_resistance.flat = 10 ∧
    (accAllRes.apply_to emptyStatBlock).lightning_resistance.flat = 10 := by
  norm_num [StatAccumulator.apply_to, accAllRes, StatAccumulator.new, emptyStatBlock,
    StatValue.zero, StatValue.add_flat, StatValue.add_increased]

/-- C8 (amended): `apply_to` folds `all_resistances` additively into the
fire, cold and lightning resistances (each receiving its own delta plus
`all_resistances`), while chaos resistance receives only its own delta;
`all_attributes_flat` folds additively into each of the six attributes. -/
theorem apply_to_fold_rules (a : StatAccumulator) (b : StatBlock) :
    (a.apply_to b).fire_resistance.flat =
      b.fire_resistance.flat + (a.fire_resistance + a.all_resistances) ∧
    (a.apply_to b).cold_resistance.flat =
      b.cold_resistance.flat + (a.cold_resistance + a.all_resistances) ∧
    (a.apply_to b).lightning_resistance.flat =
      b.lightning_resistance.flat + (a.lightning_resistance + a.all_resistances) ∧
    (a.apply_to b).chaos_resistance.flat = b.chaos_resistance.flat + a.chaos_resistance ∧
    (a.apply_to b).strength.flat = b.strength.flat + (a.strength_flat + a.all_attributes_flat) ∧
    (a.apply_to b).dexterity.flat =
      b.dexterity.flat + (a.dexterity_flat + a.all_attributes_flat) ∧
    (a.apply_to b).intelligence.flat =
      b.intelligence.flat + (a.intelligence_flat + a.all_attributes_flat) ∧
    (a.apply_to b).constitution.flat =
      b.constitution.flat + (a.constitution_flat + a.all_attributes_flat) ∧
    (a.apply_to b).wisdom.flat = b.wisdom.flat + (a.wisdom_flat + a.all_attributes_flat) ∧
    (a.apply_to b).charisma.flat =
      b.charisma.flat + (a.charisma_flat + a.all_attributes_flat) := by
  unfold StatAccumulator.apply_to
  repeat' split
  all_goals
    simp [foldlWeapon_fire_resistance, foldlWeapon_cold_resistance,
      foldlWeapon_lightning_resistance, foldlWeapon_chaos_resistance,
      foldlWeapon_strength, foldlWeapon_dexterity, foldlWeapon_intelligence,
      foldlWeapon_constitution, foldlWeapon_wisdom, foldlWeapon_charisma,
      StatValue.add_flat]

/-! ## C9: order independence of stat aggregation -/

theorem addStats_default_right (x : StatusEffectStats) :
    addStats x StatusEffectStats.default = x := by
  simp [addStats, StatusEffectStats.default]

theorem addConv_default_right (x : StatusConversions) :
    addConv x StatusConversions.default = x := by
  ext d
  simp [addConv, StatusConversions.default]

theorem addStats_ite (x : StatusEffectStats) (c : Prop) [Decidable c]
    (y z : StatusEffectStats) :
    addStats x (if c then y else z) = if c then addStats x y else addStats x z := by
  split <;> rfl

theorem addConv_ite (x : StatusConversions) (c : Prop) [Decidable c]
    (y z : StatusConversions) :
    addConv x (if c then y else z) = if c then addConv x y else addConv x z := by
  split <;> rfl

theorem add_status_dot_delta (a : StatAccumulator) (st : StatusEffect) (v : ℚ) :
    a.add_status_dot st v = accAdd a (StatAccumulator.new.add_status_dot st v) := by
  unfold StatAccumulator.add_status_dot
  ext1 <;> dsimp only [accAdd, StatAccumulator.new] <;>
    first
      | (simp [addStats_default_right, addConv_default_right]; done)
      | (simp [Finset.insert_eq, Finset.union_comm]; done)
      | (funext s
         by_cases h : s = st <;>
           simp [h, addStats, addConv, StatusEffectStats.default,
             StatusConversions.default])

theorem add_status_duration_delta (a : StatAccumulator) (st : StatusEffect) (v : ℚ) :
    a.add_status_duration st v = accAdd a (StatAccumulator.new.add_status_duration st v) := by
  unfold StatAccumulator.add_status_duration
  ext1 <;> dsimp only [accAdd, StatAccumulator.new] <;>
    first
      | (simp [addStats_default_right, addConv_default_right]; done)
      | (simp [Finset.insert_eq, Finset.union_comm]; done)
      | (funext s
         by_cases h : s = st <;>
           simp [h, addStats, addConv, StatusEffectStats.default,
             StatusConversions.default])

theorem add_status_magnitude_delta (a : StatAccumulator) (st : StatusEffect) (v : ℚ) :
    a.add_status_magnitude st v = accAdd a (StatAccumulator.new.add_status_magnitude st v) := by
  unfold StatAccumulator.add_status_magnitude
  ext1 <;> dsimp only [accAdd, StatAccumulator.new] <;>
    first
      | (simp [addStats_default_right, addConv_default_right]; done)
      | (simp [Finset.insert_eq, Finset.union_comm]; done)
      | (funext s
         by_cases h : s = st <;>
           simp [h, addStats, addConv, StatusEffectStats.default,
             StatusConversions.default])

theorem add_status_max_stacks_delta (a : StatAccumulator) (st : StatusEffect) (v : ℤ) :
    a.add_status_max_stacks st v =
      accAdd a (StatAccumulator.new.add_status_max_stacks st v) := by
  unfold StatAccumulator.add_status_max_stacks
  ext1 <;> dsimp only [accAdd, StatAccumulator.new] <;>
    first
      | (simp [addStats_default_right, addConv_default_right]; done)
      | (simp [Finset.insert_eq, Finset.union_comm]; done)
      | (funext s
         by_cases h : s = st <;>
           simp [h, addStats, addConv, StatusEffectStats.default,
             StatusConversions.default])

theorem add_conversion_delta (a : StatAccumulator) (dt : DamageType) (st : StatusEffect)
    (v : ℚ) :
    a.add_conversion dt st v = accAdd a (StatAccumulator.new.add_conversion dt st v) := by
  unfold StatAccumulator.add_conversion
  ext1 <;> dsimp only [accAdd, StatAccumulator.new] <;>
    first
      | (simp [addStats_default_right, addConv_default_right]; done)
      | (simp [Finset.insert_eq, Finset.union_comm]; done)
      | (funext s
         by_cases h : s = st <;>
           simp [h, addStats, addConv, StatusConversions.add_conversion,
             StatusEffectStats.default, StatusConversions.default]
         done)
      | (funext s
         by_cases h : s = st
         case pos =>
           subst h
           ext d
           by_cases hd : d = dt <;>
             simp [hd, addConv, StatusConversions.add_conversion,
               StatusConversions.default]
         case neg =>
           simp [h, addConv, StatusConversions.add_conversion, addConv_default_right,
             StatusConversions.default])

set_option maxHeartbeats 4000000 in
/-- Every `apply_stat_type` call decomposes as the pointwise addition of the
delta it produces on a fresh accumulator. -/
theorem apply_stat_type_delta (a : StatAccumulator) (s : StatType) (v : ℚ) :
    a.apply_stat_type s v = accAdd a (StatAccumulator.new.apply_stat_type s v) := by
  cases s
  case AddedPhysicalDamage =>
    dsimp only [StatAccumulator.apply_stat_type, accAdd, StatAccumulator.new]
    simp only [StatAccumulator.mk.injEq, zero_add, add_zero, List.append_nil,
      Finset.union_empty, addStats_default_right, addConv_default_right, and_self,
      and_true, true_and]
  case AddedFireDamage =>
    dsimp only [StatAccumulator.apply_stat_type, accAdd, StatAccumulator.new]
    simp only [StatAccumulator.mk.injEq, zero_add, add_zero, List.append_nil,
      Finset.union_empty, addStats_default_right, addConv_default_right, and_self,
      and_true, true_and]
  case AddedColdDamage =>
    dsimp only [StatAccumulator.apply_stat_type, accAdd, StatAccumulator.new]
    simp only [StatAccumulator.mk.injEq, zero_add, add_zero, List.append_nil,
      Finset.union_empty, addStats_default_right, addConv_default_right, and_self,
      and_true, true_and]
  case AddedLightningDamage =>
    dsimp only [StatAccumulator.apply_stat_type, accAdd, StatAccumulator.new]
    simp only [StatAccumulator.mk.injEq, zero_add, add_zero, List.append_nil,
      Finset.union_empty, addStats_default_right, addConv_default_right, and_self,
      and_true, true_and]
  case AddedChaosDamage =>
    dsimp only [StatAccumulator.apply_stat_type, accAdd, StatAccumulator.new]
    simp only [StatAccumulator.mk.injEq, zero_add, add_zero, List.append_nil,
      Finset.union_empty, addStats_default_right, addConv_default_right, and_self,
      and_true, true_and]
  case IncreasedPhysicalDamage =>
    dsimp only [StatAccumulator.apply_stat_type, accAdd, StatAccumulator.new]
    simp only [StatAccumulator.mk.injEq, zero_add, add_zero, List.append_nil,
      Finset.union_empty, addStats_default_right, addConv_default_right, and_self,
      and_true, true_and]
  case IncreasedFireDamage =>
    dsimp only [StatAccumulator.apply_stat_type, accAdd, StatAccumulator.new]
    simp only [StatAccumulator.mk.injEq, zero_add, add_zero, List.append_nil,
      Finset.union_empty, addStats_default_right, addConv_default_right, and_self,
      and_true, true_and]
  case IncreasedColdDamage =>
    dsimp only [StatAccumulator.apply_stat_type, accAdd, StatAccumulator.new]
    simp only [StatAccumulator.mk.injEq, zero_add, add_zero, List.append_nil,
      Finset.union_empty, addStats_default_right, addConv_default_right, and_self,
      and_true, true_and]
  case IncreasedLightningDamage =>
    dsimp only [StatAccumulator.apply_stat_type, accAdd, StatAccumulator.new]
    simp only [StatAccumulator.mk.injEq, zero_add, add_zero, List.append_nil,
      Finset.union_empty, addStats_default_right, addConv_default_right, and_self,
      and_true, true_and]
  case IncreasedElementalDamage =>
    dsimp only [StatAccumulator.apply_stat_type, accAdd, StatAccumulator.new]
    simp only [StatAccumulator.mk.injEq, zero_add, add_zero, List.append_nil,
      Finset.union_empty, addStats_default_right, addConv_default_right, and_self,
      and_true, true_and]
  case IncreasedChaosDamage =>
    dsimp only [StatAccumulator.apply_stat_type, accAdd, StatAccumulator.new]
    simp only [StatAccumulator.mk.injEq, zero_add, add_zero, List.append_nil,
      Finset.union_empty, addStats_default_right, addConv_default_right, and_self,
      and_true, true_and]
  case IncreasedAttackSpeed =>
    dsimp only [StatAccumulator.apply_stat_type, accAdd, StatAccumulator.new]
    simp only [StatAccumulator.mk.injEq, zero_add, add_zero, List.append_nil,
      Finset.union_empty, addStats_default_right, addConv_default_right, and_self,
      and_true, true_and]
  case IncreasedCriticalChance =>
    dsimp only [StatAccumulator.apply_stat_type, accAdd, StatAccumulator.new]
    simp only [StatAccumulator.mk.injEq, zero_add, add_zero, List.append_nil,
      Finset.union_empty, addStats_default_right, addConv_default_right, and_self,
      and_true, true_and]
  case IncreasedCriticalDamage =>
    dsimp only [StatAccumulator.apply_stat_type, accAdd, StatAccumulator.new]
    simp only [StatAccumulator.mk.injEq, zero_add, add_zero, List.append_nil,
      Finset.union_empty, addStats_default_right, addConv_default_right, and_self,
      and_true, true_and]
  case AddedArmour =>
    dsimp only [StatAccumulator.apply_stat_type, accAdd, StatAccumulator.new]
    simp only [StatAccumulator.mk.injEq, zero_add, add_zero, List.append_nil,
      Finset.union_empty, addStats_default_right, addConv_default_right, and_self,
      and_true, true_and]
  case AddedEvasion =>
    dsimp only [StatAccumulator.apply_stat_type, accAdd, StatAccumulator.new]
    simp only [StatAccumulator.mk.injEq, zero_add, add_zero, List.append_nil,
      Finset.union_empty, addStats_default_right, addConv_default_right, and_self,
      and_true, true_and]
  case AddedEnergyShield =>
    dsimp only [StatAccumulator.apply_stat_type, accAdd, StatAccumulator.new]
    simp only [StatAccumulator.mk.injEq, zero_add, add_zero, List.append_nil,
      Finset.union_empty, addStats_default_right, addConv_default_right, and_self,
      and_true, true_and]
  case IncreasedArmour =>
    dsimp only [StatAccumulator.apply_stat_type, accAdd, StatAccumulator.new]
    simp only [StatAccumulator.mk.injEq, zero_add, add_zero, List.append_nil,
      Finset.union_empty, addStats_default_right, addConv_default_right, and_self,
      and_true, true_and]
  case IncreasedEvasion =>
    dsimp only [StatAccumulator.apply_stat_type, accAdd, StatAccumulator.new]
    simp only [StatAccumulator.mk.injEq, zero_add, add_zero, List.append_nil,
      Finset.union_empty, addStats_default_right, addConv_default_right, and_self,
      and_true, true_and]
  case IncreasedEnergyShield =>
    dsimp only [StatAccumulator.apply_stat_type, accAdd, StatAccumulator.new]
    simp only [StatAccumulator.mk.injEq, zero_add, add_zero, List.append_nil,
      Finset.union_empty, addStats_default_right, addConv_default_right, and_self,
      and_true, true_and]
  case AddedStrength =>
    dsimp only [StatAccumulator.apply_stat_type, accAdd, StatAccumulator.new]
    simp only [StatAccumulator.mk.injEq, zero_add, add_zero, List.append_nil,
      Finset.union_empty, addStats_default_right, addConv_default_right, and_self,
      and_true, true_and]
  case AddedDexterity =>
    dsimp only [StatAccumulator.apply_stat_type, accAdd, StatAccumulator.new]
    simp only [StatAccumulator.mk.injEq, zero_add, add_zero, List.append_nil,
      Finset.union_empty, addStats_default_right, addConv_default_right, and_self,
      and_true, true_and]
  case AddedConstitution =>
    dsimp only [StatAccumulator.apply_stat_type, accAdd, StatAccumulator.new]
    simp only [StatAccumulator.mk.injEq, zero_add, add_zero, List.append_nil,
      Finset.union_empty, addStats_default_right, addConv_default_right, and_self,
      and_true, true_and]
  case AddedIntelligence =>
    dsimp only [StatAccumulator.apply_stat_type, accAdd, StatAccumulator.new]
    simp only [StatAccumulator.mk.injEq, zero_add, add_zero, List.append_nil,
      Finset.union_empty, addStats_default_right, addConv_default_right, and_self,
      and_true, true_and]
  case AddedWisdom =>
    dsimp only [StatAccumulator.apply_stat_type, accAdd, StatAccumulator.new]
    simp only [StatAccumulator.mk.injEq, zero_add, add_zero, List.append_nil,
      Finset.union_empty, addStats_default_right, addConv_default_right, and_self,
      and_true, true_and]
  case AddedCharisma =>
    dsimp only [StatAccumulator.apply_stat_type, accAdd, StatAccumulator.new]
    simp only [StatAccumulator.mk.injEq, zero_add, add_zero, List.append_nil,
      Finset.union_empty, addStats_default_right, addConv_default_right, and_self,
      and_true, true_and]
  case AddedAllAttributes =>
    dsimp only [StatAccumulator.apply_stat_type, accAdd, StatAccumulator.new]
    simp only [StatAccumulator.mk.injEq, zero_add, add_zero, List.append_nil,
      Finset.union_empty, addStats_default_right, addConv_default_right, and_self,
      and_true, true_and]
  case AddedLife =>
    dsimp only [StatAccumulator.apply_stat_type, accAdd, StatAccumulator.new]
    simp only [StatAccumulator.mk.injEq, zero_add, add_zero, List.append_nil,
      Finset.union_empty, addStats_default_right, addConv_default_right, and_self,
      and_true, true_and]
  case AddedMana =>
    dsimp only [StatAccumulator.apply_stat_type, accAdd, StatAccumulator.new]
    simp only [StatAccumulator.mk.injEq, zero_add, add_zero, List.append_nil,
      Finset.union_empty, addStats_default_right, addConv_default_right, and_self,
      and_true, true_and]
  case IncreasedLife =>
    dsimp only [StatAccumulator.apply_stat_type, accAdd, StatAccumulator.new]
    simp only [StatAccumulator.mk.injEq, zero_add, add_zero, List.append_nil,
      Finset.union_empty, addStats_default_right, addConv_default_right, and_self,
      and_true, true_and]
  case IncreasedMana =>
    dsimp only [StatAccumulator.apply_stat_type, accAdd, StatAccumulator.new]
    simp only [StatAccumulator.mk.injEq, zero_add, add_zero, List.append_nil,
      Finset.union_empty, addStats_default_right, addConv_default_right, and_self,
      and_true, true_and]
  case LifeRegeneration =>
    dsimp only [StatAccumulator.apply_stat_type, accAdd, StatAccumulator.new]
    simp only [StatAccumulator.mk.injEq, zero_add, add_zero, List.append_nil,
      Finset.union_empty, addStats_default_right, addConv_default_right, and_self,
      and_true, true_and]
  case ManaRegeneration =>
    dsimp only [StatAccumulator.apply_stat_type, accAdd, StatAccumulator.new]
    simp only [StatAccumulator.mk.injEq, zero_add, add_zero, List.append_nil,
      Finset.union_empty, addStats_default_right, addConv_default_right, and_self,
      and_true, true_and]
  case LifeOnHit =>
    dsimp only [StatAccumulator.apply_stat_type, accAdd, StatAccumulator.new]
    simp only [StatAccumulator.mk.injEq, zero_add, add_zero, List.append_nil,
      Finset.union_empty, addStats_default_right, addConv_default_right, and_self,
      and_true, true_and]
  case LifeLeech =>
    dsimp only [StatAccumulator.apply_stat_type, accAdd, StatAccumulator.new]
    simp only [StatAccumulator.mk.injEq, zero_add, add_zero, List.append_nil,
      Finset.union_empty, addStats_default_right, addConv_default_right, and_self,
      and_true, true_and]
  case ManaLeech =>
    dsimp only [StatAccumulator.apply_stat_type, accAdd, StatAccumulator.new]
    simp only [StatAccumulator.mk.injEq, zero_add, add_zero, List.append_nil,
      Finset.union_empty, addStats_default_right, addConv_default_right, and_self,
      and_true, true_and]
  case FireResistance =>
    dsimp only [StatAccumulator.apply_stat_type, accAdd, StatAccumulator.new]
    simp only [StatAccumulator.mk.injEq, zero_add, add_zero, List.append_nil,
      Finset.union_empty, addStats_default_right, addConv_default_right, and_self,
      and_true, true_and]
  case ColdResistance =>
    dsimp only [StatAccumulator.apply_stat_type, accAdd, StatAccumulator.new]
    simp only [StatAccumulator.mk.injEq, zero_add, add_zero, List.append_nil,
      Finset.union_empty, addStats_default_right, addConv_default_right, and_self,
      and_true, true_and]
  case LightningResistance =>
    dsimp only [StatAccumulator.apply_stat_type, accAdd, StatAccumulator.new]
    simp only [StatAccumulator.mk.injEq, zero_add, add_zero, List.append_nil,
      Finset.union_empty, addStats_default_right, addConv_default_right, and_self,
      and_true, true_and]
  case ChaosResistance =>
    dsimp only [StatAccumulator.apply_stat_type, accAdd, StatAccumulator.new]
    simp only [StatAccumulator.mk.injEq, zero_add, add_zero, List.append_nil,
      Finset.union_empty, addStats_default_right, addConv_default_right, and_self,
      and_true, true_and]
  case AllResistances =>
    dsimp only [StatAccumulator.apply_stat_type, accAdd, StatAccumulator.new]
    simp only [StatAccumulator.mk.injEq, zero_add, add_zero, List.append_nil,
      Finset.union_empty, addStats_default_right, addConv_default_right, and_self,
      and_true, true_and]
  case AddedAccuracy =>
    dsimp only [StatAccumulator.apply_stat_type, accAdd, StatAccumulator.new]
    simp only [StatAccumulator.mk.injEq, zero_add, add_zero, List.append_nil,
      Finset.union_empty, addStats_default_right, addConv_default_right, and_self,
      and_true, true_and]
  case IncreasedAccuracy =>
    dsimp only [StatAccumulator.apply_stat_type, accAdd, StatAccumulator.new]
    simp only [StatAccumulator.mk.injEq, zero_add, add_zero, List.append_nil,
      Finset.union_empty, addStats_default_right, addConv_default_right, and_self,
      and_true, true_and]
  case IncreasedMovementSpeed =>
    dsimp only [StatAccumulator.apply_stat_type, accAdd, StatAccumulator.new]
    simp only [StatAccumulator.mk.injEq, zero_add, add_zero, List.append_nil,
      Finset.union_empty, addStats_default_right, addConv_default_right, and_self,
      and_true, true_and]
  case IncreasedItemRarity =>
    dsimp only [StatAccumulator.apply_stat_type, accAdd, StatAccumulator.new]
    simp only [StatAccumulator.mk.injEq, zero_add, add_zero, List.append_nil,
      Finset.union_empty, addStats_default_right, addConv_default_right, and_self,
      and_true, true_and]
  case IncreasedItemQuantity =>
    dsimp only [StatAccumulator.apply_stat_type, accAdd, StatAccumulator.new]
    simp only [StatAccumulator.mk.injEq, zero_add, add_zero, List.append_nil,
      Finset.union_empty, addStats_default_right, addConv_default_right, and_self,
      and_true, true_and]
  case IncreasedStrength =>
    dsimp only [StatAccumulator.apply_stat_type, accAdd, StatAccumulator.new]
    simp only [StatAccumulator.mk.injEq, zero_add, add_zero, List.append_nil,
      Finset.union_empty, addStats_default_right, addConv_default_right, and_self,
      and_true, true_and]
  case IncreasedDexterity =>
    dsimp only [StatAccumulator.apply_stat_type, accAdd, StatAccumulator.new]
    simp only [StatAccumulator.mk.injEq, zero_add, add_zero, List.append_nil,
      Finset.union_empty, addStats_default_right, addConv_default_right, and_self,
      and_true, true_and]
  case IncreasedConstitution =>
    dsimp only [StatAccumulator.apply_stat_type, accAdd, StatAccumulator.new]
    simp only [StatAccumulator.mk.injEq, zero_add, add_zero, List.append_nil,
      Finset.union_empty, addStats_default_right, addConv_default_right, and_self,
      and_true, true_and]
  case IncreasedIntelligence =>
    dsimp only [StatAccumulator.apply_stat_type, accAdd, StatAccumulator.new]
    simp only [StatAccumulator.mk.injEq, zero_add, add_zero, List.append_nil,
      Finset.union_empty, addStats_default_right, addConv_default_right, and_self,
      and_true, true_and]
  case IncreasedWisdom =>
    dsimp only [StatAccumulator.apply_stat_type, accAdd, StatAccumulator.new]
    simp only [StatAccumulator.mk.injEq, zero_add, add_zero, List.append_nil,
      Finset.union_empty, addStats_default_right, addConv_default_right, and_self,
      and_true, true_and]
  case IncreasedCharisma =>
    dsimp only [StatAccumulator.apply_stat_type, accAdd, StatAccumulator.new]
    simp only [StatAccumulator.mk.injEq, zero_add, add_zero, List.append_nil,
      Finset.union_empty, addStats_default_right, addConv_default_right, and_self,
      and_true, true_and]
  case IncreasedAllAttributes =>
    dsimp only [StatAccumulator.apply_stat_type, accAdd, StatAccumulator.new]
    simp only [StatAccumulator.mk.injEq, zero_add, add_zero, List.append_nil,
      Finset.union_empty, addStats_default_right, addConv_default_right, and_self,
      and_true, true_and]
  case IncreasedPoisonDamage =>
    dsimp only [StatAccumulator.apply_stat_type, accAdd, StatAccumulator.new]
    simp only [StatAccumulator.mk.injEq, zero_add, add_zero, List.append_nil,
      Finset.union_empty, addStats_default_right, addConv_default_right, and_self,
      and_true, true_and]
  case IncreasedBleedDamage =>
    dsimp only [StatAccumulator.apply_stat_type, accAdd, StatAccumulator.new]
    simp only [StatAccumulator.mk.injEq, zero_add, add_zero, List.append_nil,
      Finset.union_empty, addStats_default_right, addConv_default_right, and_self,
      and_true, true_and]
  case IncreasedBurnDamage =>
    dsimp only [StatAccumulator.apply_stat_type, accAdd, StatAccumulator.new]
    simp only [StatAccumulator.mk.injEq, zero_add, add_zero, List.append_nil,
      Finset.union_empty, addStats_default_right, addConv_default_right, and_self,
      and_true, true_and]
  case IncreasedFreezeDamage =>
    dsimp only [StatAccumulator.apply_stat_type, accAdd, StatAccumulator.new]
    simp only [StatAccumulator.mk.injEq, zero_add, add_zero, List.append_nil,
      Finset.union_empty, addStats_default_right, addConv_default_right, and_self,
      and_true, true_and]
  case IncreasedChillDamage =>
    dsimp only [StatAccumulator.apply_stat_type, accAdd, StatAccumulator.new]
    simp only [StatAccumulator.mk.injEq, zero_add, add_zero, List.append_nil,
      Finset.union_empty, addStats_default_right, addConv_default_right, and_self,
      and_true, true_and]
  case IncreasedStaticDamage =>
    dsimp only [StatAccumulator.apply_stat_type, accAdd, StatAccumulator.new]
    simp only [StatAccumulator.mk.injEq, zero_add, add_zero, List.append_nil,
      Finset.union_empty, addStats_default_right, addConv_default_right, and_self,
      and_true, true_and]
  case IncreasedFearDamage =>
    dsimp only [StatAccumulator.apply_stat_type, accAdd, StatAccumulator.new]
    simp only [StatAccumulator.mk.injEq, zero_add, add_zero, List.append_nil,
      Finset.union_empty, addStats_default_right, addConv_default_right, and_self,
      and_true, true_and]
  case IncreasedSlowDamage =>
    dsimp only [StatAccumulator.apply_stat_type, accAdd, StatAccumulator.new]
    simp only [StatAccumulator.mk.injEq, zero_add, add_zero, List.append_nil,
      Finset.union_empty, addStats_default_right, addConv_default_right, and_self,
      and_true, true_and]
  case IncreasedAllStatusDamage =>
    dsimp only [StatAccumulator.apply_stat_type, accAdd, StatAccumulator.new]
    simp only [StatAccumulator.mk.injEq, zero_add, add_zero, List.append_nil,
      Finset.union_empty, addStats_default_right, addConv_default_right, and_self,
      and_true, true_and]
  case IncreasedDamagingStatusDamage =>
    dsimp only [StatAccumulator.apply_stat_type, accAdd, StatAccumulator.new]
    simp only [StatAccumulator.mk.injEq, zero_add, add_zero, List.append_nil,
      Finset.union_empty, addStats_default_right, addConv_default_right, and_self,
      and_true, true_and]
  case IncreasedNonDamagingStatusDamage =>
    dsimp only [StatAccumulator.apply_stat_type, accAdd, StatAccumulator.new]
    simp only [StatAccumulator.mk.injEq, zero_add, add_zero, List.append_nil,
      Finset.union_empty, addStats_default_right, addConv_default_right, and_self,
      and_true, true_and]
  case StatusMagnitudeOnCrit =>
    dsimp only [StatAccumulator.apply_stat_type, accAdd, StatAccumulator.new]
    simp only [StatAccumulator.mk.injEq, zero_add, add_zero, List.append_nil,
      Finset.union_empty, addStats_default_right, addConv_default_right, and_self,
      and_true, true_and]
  case IncreasedStatusDamageOnCrit =>
    dsimp only [StatAccumulator.apply_stat_type, accAdd, StatAccumulator.new]
    simp only [StatAccumulator.mk.injEq, zero_add, add_zero, List.append_nil,
      Finset.union_empty, addStats_default_right, addConv_default_right, and_self,
      and_true, true_and]
  case BlockChance =>
    dsimp only [StatAccumulator.apply_stat_type, accAdd, StatAccumulator.new]
    simp only [StatAccumulator.mk.injEq, zero_add, add_zero, List.append_nil,
      Finset.union_empty, addStats_default_right, addConv_default_right, and_self,
      and_true, true_and]
  case BlockAmount =>
    dsimp only [StatAccumulator.apply_stat_type, accAdd, StatAccumulator.new]
    simp only [StatAccumulator.mk.injEq, zero_add, add_zero, List.append_nil,
      Finset.union_empty, addStats_default_right, addConv_default_right, and_self,
      and_true, true_and]
  case SpellDodgeChance =>
    dsimp only [StatAccumulator.apply_stat_type, accAdd, StatAccumulator.new]
    simp only [StatAccumulator.mk.injEq, zero_add, add_zero, List.append_nil,
      Finset.union_empty, addStats_default_right, addConv_default_right, and_self,
      and_true, true_and]
  case IncreasedAreaOfEffect =>
    dsimp only [StatAccumulator.apply_stat_type, accAdd, StatAccumulator.new]
    simp only [StatAccumulator.mk.injEq, zero_add, add_zero, List.append_nil,
      Finset.union_empty, addStats_default_right, addConv_default_right, and_self,
      and_true, true_and]
  case AdditionalProjectiles =>
    dsimp only [StatAccumulator.apply_stat_type, accAdd, StatAccumulator.new]
    simp only [StatAccumulator.mk.injEq, zero_add, add_zero, List.append_nil,
      Finset.union_empty, addStats_default_right, addConv_default_right, and_self,
      and_true, true_and]
  case IncreasedProjectileSpeed =>
    dsimp only [StatAccumulator.apply_stat_type, accAdd, StatAccumulator.new]
    simp only [StatAccumulator.mk.injEq, zero_add, add_zero, List.append_nil,
      Finset.union_empty, addStats_default_right, addConv_default_right, and_self,
      and_true, true_and]
  case IncreasedSkillDuration =>
    dsimp only [StatAccumulator.apply_stat_type, accAdd, StatAccumulator.new]
    simp only [StatAccumulator.mk.injEq, zero_add, add_zero, List.append_nil,
      Finset.union_empty, addStats_default_right, addConv_default_right, and_self,
      and_true, true_and]
  case CooldownReduction =>
    dsimp only [StatAccumulator.apply_stat_type, accAdd, StatAccumulator.new]
    simp only [StatAccumulator.mk.injEq, zero_add, add_zero, List.append_nil,
      Finset.union_empty, addStats_default_right, addConv_default_right, and_self,
      and_true, true_and]
  case ReducedManaCost =>
    dsimp only [StatAccumulator.apply_stat_type, accAdd, StatAccumulator.new]
    simp only [StatAccumulator.mk.injEq, zero_add, add_zero, List.append_nil,
      Finset.union_empty, addStats_default_right, addConv_default_right, and_self,
      and_true, true_and]
  case IncreasedCastSpeed =>
    dsimp only [StatAccumulator.apply_stat_type, accAdd, StatAccumulator.new]
    simp only [StatAccumulator.mk.injEq, zero_add, add_zero, List.append_nil,
      Finset.union_empty, addStats_default_right, addConv_default_right, and_self,
      and_true, true_and]
  case IncreasedGlobalDamage =>
    dsimp only [StatAccumulator.apply_stat_type, accAdd, StatAccumulator.new]
    simp only [StatAccumulator.mk.injEq, zero_add, add_zero, List.append_nil,
      Finset.union_empty, addStats_default_right, addConv_default_right, and_self,
      and_true, true_and]
  case DamageOverTimeMultiplier =>
    dsimp only [StatAccumulator.apply_stat_type, accAdd, StatAccumulator.new]
    simp only [StatAccumulator.mk.injEq, zero_add, add_zero, List.append_nil,
      Finset.union_empty, addStats_default_right, addConv_default_right, and_self,
      and_true, true_and]
  case ReducedDamageTaken =>
    dsimp only [StatAccumulator.apply_stat_type, accAdd, StatAccumulator.new]
    simp only [StatAccumulator.mk.injEq, zero_add, add_zero, List.append_nil,
      Finset.union_empty, addStats_default_right, addConv_default_right, and_self,
      and_true, true_and]
  case PhysicalDamageReduction =>
    dsimp only [StatAccumulator.apply_stat_type, accAdd, StatAccumulator.new]
    simp only [StatAccumulator.mk.injEq, zero_add, add_zero, List.append_nil,
      Finset.union_empty, addStats_default_right, addConv_default_right, and_self,
      and_true, true_and]
  case PhysicalPenetration =>
    dsimp only [StatAccumulator.apply_stat_type, accAdd, StatAccumulator.new]
    simp only [StatAccumulator.mk.injEq, zero_add, add_zero, List.append_nil,
      Finset.union_empty, addStats_default_right, addConv_default_right, and_self,
      and_true, true_and]
  case CullingStrike =>
    dsimp only [StatAccumulator.apply_stat_type, accAdd, StatAccumulator.new]
    simp only [StatAccumulator.mk.injEq, zero_add, add_zero, List.append_nil,
      Finset.union_empty, addStats_default_right, addConv_default_right, and_self,
      and_true, true_and]
  case LifeOnKill =>
    dsimp only [StatAccumulator.apply_stat_type, accAdd, StatAccumulator.new]
    simp only [StatAccumulator.mk.injEq, zero_add, add_zero, List.append_nil,
      Finset.union_empty, addStats_default_right, addConv_default_right, and_self,
      and_true, true_and]
  case ManaOnKill =>
    dsimp only [StatAccumulator.apply_stat_type, accAdd, StatAccumulator.new]
    simp only [StatAccumulator.mk.injEq, zero_add, add_zero, List.append_nil,
      Finset.union_empty, addStats_default_right, addConv_default_right, and_self,
      and_true, true_and]
  case PoisonDamageOverTime => exact add_status_dot_delta a .Poison (v / 100)
  case IncreasedPoisonDuration => exact add_status_duration_delta a .Poison (v / 100)
  case PoisonMagnitude => exact add_status_magnitude_delta a .Poison (v / 100)
  case PoisonMaxStacks => exact add_status_max_stacks_delta a .Poison (f64_as_i32 v)
  case ConvertPhysicalToPoison => exact add_conversion_delta a .Physical .Poison (v / 100)
  case ConvertFireToPoison => exact add_conversion_delta a .Fire .Poison (v / 100)
  case ConvertColdToPoison => exact add_conversion_delta a .Cold .Poison (v / 100)
  case ConvertLightningToPoison => exact add_conversion_delta a .Lightning .Poison (v / 100)
  case ConvertChaosToPoison => exact add_conversion_delta a .Chaos .Poison (v / 100)
  case BleedDamageOverTime => exact add_status_dot_delta a .Bleed (v / 100)
  case IncreasedBleedDuration => exact add_status_duration_delta a .Bleed (v / 100)
  case BleedMagnitude => exact add_status_magnitude_delta a .Bleed (v / 100)
  case BleedMaxStacks => exact add_status_max_stacks_delta a .Bleed (f64_as_i32 v)
  case ConvertPhysicalToBleed => exact add_conversion_delta a .Physical .Bleed (v / 100)
  case ConvertFireToBleed => exact add_conversion_delta a .Fire .Bleed (v / 100)
  case ConvertColdToBleed => exact add_conversion_delta a .Cold .Bleed (v / 100)
  case ConvertLightningToBleed => exact add_conversion_delta a .Lightning .Bleed (v / 100)
  case ConvertChaosToBleed => exact add_conversion_delta a .Chaos .Bleed (v / 100)
  case BurnDamageOverTime => exact add_status_dot_delta a .Burn (v / 100)
  case IncreasedBurnDuration => exact add_status_duration_delta a .Burn (v / 100)
  case BurnMagnitude => exact add_status_magnitude_delta a .Burn (v / 100)
  case BurnMaxStacks => exact add_status_max_stacks_delta a .Burn (f64_as_i32 v)
  case ConvertPhysicalToBurn => exact add_conversion_delta a .Physical .Burn (v / 100)
  case ConvertFireToBurn => exact add_conversion_delta a .Fire .Burn (v / 100)
  case ConvertColdToBurn => exact add_conversion_delta a .Cold .Burn (v / 100)
  case ConvertLightningToBurn => exact add_conversion_delta a .Lightning .Burn (v / 100)
  case ConvertChaosToBurn => exact add_conversion_delta a .Chaos .Burn (v / 100)
  case IncreasedFreezeDuration => exact add_status_duration_delta a .Freeze (v / 100)
  case FreezeMagnitude => exact add_status_magnitude_delta a .Freeze (v / 100)
  case FreezeMaxStacks => exact add_status_max_stacks_delta a .Freeze (f64_as_i32 v)
  case ConvertPhysicalToFreeze => exact add_conversion_delta a .Physical .Freeze (v / 100)
  case ConvertFireToFreeze => exact add_conversion_delta a .Fire .Freeze (v / 100)
  case ConvertColdToFreeze => exact add_conversion_delta a .Cold .Freeze (v / 100)
  case ConvertLightningToFreeze => exact add_conversion_delta a .Lightning .Freeze (v / 100)
  case ConvertChaosToFreeze => exact add_conversion_delta a .Chaos .Freeze (v / 100)
  case IncreasedChillDuration => exact add_status_duration_delta a .Chill (v / 100)
  case ChillMagnitude => exact add_status_magnitude_delta a .Chill (v / 100)
  case ChillMaxStacks => exact add_status_max_stacks_delta a .Chill (f64_as_i32 v)
  case ConvertPhysicalToChill => exact add_conversion_delta a .Physical .Chill (v / 100)
  case ConvertFireToChill => exact add_conversion_delta a .Fire .Chill (v / 100)
  case ConvertColdToChill => exact add_conversion_delta a .Cold .Chill (v / 100)
  case ConvertLightningToChill => exact add_conversion_delta a .Lightning .Chill (v / 100)
  case ConvertChaosToChill => exact add_conversion_delta a .Chaos .Chill (v / 100)
  case IncreasedStaticDuration => exact add_status_duration_delta a .Static (v / 100)
  case StaticMagnitude => exact add_status_magnitude_delta a .Static (v / 100)
  case StaticMaxStacks => exact add_status_max_stacks_delta a .Static (f64_as_i32 v)
  case ConvertPhysicalToStatic => exact add_conversion_delta a .Physical .Static (v / 100)
  case ConvertFireToStatic => exact add_conversion_delta a .Fire .Static (v / 100)
  case ConvertColdToStatic => exact add_conversion_delta a .Cold .Static (v / 100)
  case ConvertLightningToStatic => exact add_conversion_delta a .Lightning .Static (v / 100)
  case ConvertChaosToStatic => exact add_conversion_delta a .Chaos .Static (v / 100)
  case IncreasedFearDuration => exact add_status_duration_delta a .Fear (v / 100)
  case FearMagnitude => exact add_status_magnitude_delta a .Fear (v / 100)
  case FearMaxStacks => exact add_status_max_stacks_delta a .Fear (f64_as_i32 v)
  case ConvertPhysicalToFear => exact add_conversion_delta a .Physical .Fear (v / 100)
  case ConvertFireToFear => exact add_conversion_delta a .Fire .Fear (v / 100)
  case ConvertColdToFear => exact add_conversion_delta a .Cold .Fear (v / 100)
  case ConvertLightningToFear => exact add_conversion_delta a .Lightning .Fear (v / 100)
  case ConvertChaosToFear => exact add_conversion_delta a .Chaos .Fear (v / 100)
  case IncreasedSlowDuration => exact add_status_duration_delta a .Slow (v / 100)
  case SlowMagnitude => exact add_status_magnitude_delta a .Slow (v / 100)
  case SlowMaxStacks => exact add_status_max_stacks_delta a .Slow (f64_as_i32 v)
  case ConvertPhysicalToSlow => exact add_conversion_delta a .Physical .Slow (v / 100)
  case ConvertFireToSlow => exact add_conversion_delta a .Fire .Slow (v / 100)
  case ConvertColdToSlow => exact add_conversion_delta a .Cold .Slow (v / 100)
  case ConvertLightningToSlow => exact add_conversion_delta a .Lightning .Slow (v / 100)
  case ConvertChaosToSlow => exact add_conversion_delta a .Chaos .Slow (v / 100)

/-- No `apply_stat_type` arm touches a list-valued accumulator field, so
every delta has empty list fields. -/
theorem delta_list_fields (s : StatType) (v : ℚ) :
    (StatAccumulator.new.apply_stat_type s v).life_more = [] ∧
    (StatAccumulator.new.apply_stat_type s v).mana_more = [] ∧
    (StatAccumulator.new.apply_stat_type s v).physical_damage_more = [] ∧
    (StatAccumulator.new.apply_stat_type s v).fire_damage_more = [] ∧
    (StatAccumulator.new.apply_stat_type s v).cold_damage_more = [] ∧
    (StatAccumulator.new.apply_stat_type s v).lightning_damage_more = [] ∧
    (StatAccumulator.new.apply_stat_type s v).chaos_damage_more = [] ∧
    (StatAccumulator.new.apply_stat_type s v).weapon_elemental_damages = [] := by
  cases s <;> exact ⟨rfl, rfl, rfl, rfl, rfl, rfl, rfl, rfl⟩

theorem addStats_right_comm (x y z : StatusEffectStats) :
    addStats (addStats x y) z = addStats (addStats x z) y := by
  simp [addStats, add_right_comm]

theorem addConv_right_comm (x y z : StatusConversions) :
    addConv (addConv x y) z = addConv (addConv x z) y := by
  ext d
  simp [addConv, add_right_comm]

theorem accAdd_right_comm (a d₁ d₂ : StatAccumulator)
    (h₁ : d₁.life_more = [] ∧ d₁.mana_more = [] ∧ d₁.physical_damage_more = [] ∧
      d₁.fire_damage_more = [] ∧ d₁.cold_damage_more = [] ∧
      d₁.lightning_damage_more = [] ∧ d₁.chaos_damage_more = [] ∧
      d₁.weapon_elemental_damages = [])
    (h₂ : d₂.life_more = [] ∧ d₂.mana_more = [] ∧ d₂.physical_damage_more = [] ∧
      d₂.fire_damage_more = [] ∧ d₂.cold_damage_more = [] ∧
      d₂.lightning_damage_more = [] ∧ d₂.chaos_damage_more = [] ∧
      d₂.weapon_elemental_damages = []) :
    accAdd (accAdd a d₁) d₂ = accAdd (accAdd a d₂) d₁ := by
  obtain ⟨p1, p2, p3, p4, p5, p6, p7, p8⟩ := h₁
  obtain ⟨q1, q2, q3, q4, q5, q6, q7, q8⟩ := h₂
  ext1 <;> dsimp only [accAdd] <;>
    first
      | exact add_right_comm _ _ _
      | (simp only [p1, p2, p3, p4, p5, p6, p7, p8, q1, q2, q3, q4, q5, q6, q7, q8,
          List.append_nil]; done)
      | exact Finset.union_right_comm _ _ _
      | (funext s; exact addStats_right_comm _ _ _)
      | (funext s; exact addConv_right_comm _ _ _)

/-- Two `apply_stat_type` calls commute on every accumulator. -/
theorem apply_stat_type_comm (a : StatAccumulator) (s₁ s₂ : StatType) (v₁ v₂ : ℚ) :
    (a.apply_stat_type s₁ v₁).apply_stat_type s₂ v₂ =
      (a.apply_stat_type s₂ v₂).apply_stat_type s₁ v₁ := by
  rw [apply_stat_type_delta (a.apply_stat_type s₁ v₁) s₂ v₂,
    apply_stat_type_delta a s₁ v₁,
    apply_stat_type_delta (a.apply_stat_type s₂ v₂) s₁ v₁,
    apply_stat_type_delta a s₂ v₂]
  exact accAdd_right_comm a _ _ (delta_list_fields s₁ v₁) (delta_list_fields s₂ v₂)

/-- Folding a modifier list into an accumulator is invariant under
permutation of the list. -/
theorem foldl_applyPair_perm {l₁ l₂ : List (StatType × ℚ)} (h : l₁.Perm l₂) :
    ∀ acc : StatAccumulator, l₁.foldl applyPair acc = l₂.foldl applyPair acc := by
  induction h with
  | nil => intro acc; rfl
  | cons x _ ih =>
      intro acc
      simp only [List.foldl_cons]
      exact ih _
  | swap x y l =>
      intro acc
      simp only [List.foldl_cons]
      rw [show applyPair (applyPair acc y) x = applyPair (applyPair acc x) y from
        apply_stat_type_comm acc y.1 x.1 y.2 x.2]
  | trans _ _ ih₁ ih₂ =>
      intro acc
      rw [ih₁ acc, ih₂ acc]

/-- C9: for every finite multiset of `(StatType, value)` modifier inputs —
given as a list up to permutation — the accumulator state produced by the
`apply_stat_type` calls, and therefore the `StatBlock` produced by the
`apply_to` commit, is identical for every ordering of the calls. -/
theorem stat_aggregation_order_independent :
    ∀ l₁ l₂ : List (StatType × ℚ), l₁.Perm l₂ →
      ∀ (acc : StatAccumulator) (b : StatBlock),
        l₁.foldl applyPair acc = l₂.foldl applyPair acc ∧
        (l₁.foldl applyPair acc).apply_to b = (l₂.foldl applyPair acc).apply_to b := by
  intro l₁ l₂ h acc b
  refine ⟨foldl_applyPair_perm h acc, ?_⟩
  rw [foldl_applyPair_perm h acc]

/-- Witness for C9: swapping a fire-resistance and an all-resistances
modifier leaves the aggregation result unchanged. -/
theorem stat_aggregation_order_independent_witness :
    [(StatType.FireResistance, (10 : ℚ)), (StatType.AllResistances, 20)].foldl applyPair
        StatAccumulator.new =
      [(StatType.AllResistances, (20 : ℚ)), (StatType.FireResistance, 10)].foldl applyPair
        StatAccumulator.new ∧
    ([(StatType.FireResistance, (10 : ℚ)), (StatType.AllResistances, 20)].foldl applyPair
        StatAccumulator.new).apply_to emptyStatBlock =
      ([(StatType.AllResistances, (20 : ℚ)), (StatType.FireResistance, 10)].foldl applyPair
        StatAccumulator.new).apply_to emptyStatBlock :=
  stat_aggregation_order_independent _ _ (List.Perm.swap _ _ _) StatAccumulator.new
    emptyStatBlock

/-! ## C1: resolution never mutates the defender slot

Every pipeline step writes only `new_defender`, `result` and `rng`; the
`defender` component of the call frame is untouched, step by step. -/

namespace Resolve

theorem initResult_defender (v : ResolveVars) : (initResult v).defender = v.defender := rfl

theorem step1One_defender (C : GameConstants) (packet : DamagePacket) (v : ResolveVars)
    (fd : FinalDamage) : (step1One C packet v fd).defender = v.defender := by
  unfold step1One
  dsimp only
  repeat' split
  all_goals rfl

theorem step1Resists_defender (C : GameConstants) (packet : DamagePacket) (v : ResolveVars) :
    (step1Resists C packet v).defender = v.defender := by
  unfold step1Resists
  generalize packet.damages = l
  induction l generalizing v with
  | nil => rfl
  | cons x xs ih =>
      rw [List.foldl_cons, ih, step1One_defender]

theorem step2Armour_defender (C : GameConstants) (v : ResolveVars) :
    (step2Armour C v).defender = v.defender := by
  unfold step2Armour
  dsimp only
  repeat' split
  all_goals rfl

theorem step2bPhysDR_defender (v : ResolveVars) :
    (step2bPhysDR v).defender = v.defender := by
  unfold step2bPhysDR
  dsimp only
  repeat' split
  all_goals rfl

theorem step3Evasion_defender (C : GameConstants) (packet : DamagePacket) (v : ResolveVars) :
    (step3Evasion C packet v).defender = v.defender := by
  unfold step3Evasion
  dsimp only
  repeat' split
  all_goals rfl

theorem step3bBlock_defender (v : ResolveVars) :
    (step3bBlock v).defender = v.defender := by
  unfold step3bBlock
  dsimp only
  repeat' split
  all_goals rfl

theorem step3cReducedTaken_defender (v : ResolveVars) :
    (step3cReducedTaken v).defender = v.defender := by
  unfold step3cReducedTaken
  dsimp only
  repeat' split
  all_goals rfl

theorem stepTotal_defender (v : ResolveVars) : (stepTotal v).defender = v.defender := rfl

theorem step4ApplyDamage_defender (v : ResolveVars) :
    (step4ApplyDamage v).defender = v.defender := by
  unfold step4ApplyDamage
  dsimp only
  repeat' split
  all_goals rfl

theorem step4bCulling_defender (packet : DamagePacket) (v : ResolveVars) :
    (step4bCulling packet v).defender = v.defender := by
  unfold step4bCulling
  dsimp only
  repeat' split
  all_goals rfl

theorem step4cOnKill_defender (packet : DamagePacket) (v : ResolveVars) :
    (step4cOnKill packet v).defender = v.defender := by
  unfold step4cOnKill
  dsimp only
  repeat' split
  all_goals rfl

theorem storeFinal_defender (v : ResolveVars) : (storeFinal v).defender = v.defender := rfl

theorem step5One_defender (reg : DotRegistry) (packet : DamagePacket) (tmh : ℚ)
    (v : ResolveVars) (ps : PendingStatusEffect) :
    (step5One reg packet tmh v ps).defender = v.defender := by
  unfold step5One
  dsimp only
  repeat' split
  all_goals rfl

theorem step5Status_defender (reg : DotRegistry) (packet : DamagePacket) (v : ResolveVars) :
    (step5Status reg packet v).defender = v.defender := by
  unfold step5Status
  generalize packet.status_effects_to_apply = l
  generalize v.new_defender.computed_max_life = tmh
  induction l generalizing v with
  | nil => rfl
  | cons x xs ih =>
      rw [List.foldl_cons, ih, step5One_defender]

end Resolve

theorem resolveRest_defender (C : GameConstants) (reg : DotRegistry) (packet : DamagePacket)
    (v : ResolveVars) : (resolveRest C reg packet v).defender = v.defender := by
  unfold resolveRest
  rw [Resolve.step5Status_defender, Resolve.storeFinal_defender,
    Resolve.step4cOnKill_defender, Resolve.step4bCulling_defender,
    Resolve.step4ApplyDamage_defender, Resolve.stepTotal_defender,
    Resolve.step3cReducedTaken_defender, Resolve.step3bBlock_defender,
    Resolve.step3Evasion_defender, Resolve.step2bPhysDR_defender,
    Resolve.step2Armour_defender, Resolve.step1Resists_defender]

/-- C1: `resolve_damage_with_rng` does not mutate its `defender` argument:
for every constants/registry environment, every packet, and every call
frame (defender slot, `new_defender` scratch copy, result ledger, RNG
state), the defender slot after the whole resolution equals the pre-call
snapshot — every write in the body targets the returned `new_defender`, the
`result`, or the RNG. -/
theorem resolve_damage_never_mutates_defender (C : GameConstants) (reg : DotRegistry)
    (packet : DamagePacket) (v : ResolveVars) :
    (resolveDamageFrame C reg packet v).defender = v.defender := by
  unfold resolveDamageFrame
  dsimp only
  repeat' split
  all_goals first
    | rfl
    | (rw [resolveRest_defender]; rfl)
    | (dsimp only; rw [resolveRest_defender])
    | (dsimp only; rfl)

/-! ## C3: energy shield absorbs before life -/

set_option maxHeartbeats 1000000 in
open Resolve in
/-- C3: in the damage-application step of `resolve_damage` (resolution.rs
171-191), the final total damage is applied to `current_energy_shield`
first and only the remainder is subtracted from `current_life`; when the
resulting life is non-positive it is clamped to exactly 0 and
`is_killing_blow` is set. Formally, for a non-negative energy shield and a
non-negative final total: the new shield is `max (es - total) 0`, the new
life is `life - max (total - es) 0` clamped to 0, and the killing-blow flag
is raised exactly when the pre-clamp life is non-positive. -/
theorem energy_shield_absorbs_before_life (v : ResolveVars)
    (hes : 0 ≤ v.new_defender.current_energy_shield)
    (htot : 0 ≤ v.result.total_damage) :
    (step4ApplyDamage v).new_defender.current_energy_shield =
      fmax (v.new_defender.current_energy_shield - v.result.total_damage) 0 ∧
    (step4ApplyDamage v).new_defender.current_life =
      (if v.new_defender.current_life -
            fmax (v.result.total_damage - v.new_defender.current_energy_shield) 0 ≤ 0 then 0
        else v.new_defender.current_life -
          fmax (v.result.total_damage - v.new_defender.current_energy_shield) 0) ∧
    (step4ApplyDamage v).result.is_killing_blow =
      (if v.new_defender.current_life -
            fmax (v.result.total_damage - v.new_defender.current_energy_shield) 0 ≤ 0 then true
        else v.result.is_killing_blow) := by
  unfold step4ApplyDamage
  dsimp only
  simp only [fmin, fmax] at *
  split_ifs at * <;> refine ⟨?_, ?_, ?_⟩
  all_goals dsimp only at *
  all_goals try linarith
  all_goals rcases not_and_or.mp ‹¬(_ ∧ _)› with h' | h' <;> linarith

open Resolve in
/-- Witness for C3 at the spec's example: a defender with energy shield 50
and life 100 taking 75 final damage ends with shield 0 and life 75. -/
theorem energy_shield_absorbs_before_life_witness :
    (step4ApplyDamage esFrameFix).new_defender.current_energy_shield = 0 ∧
    (step4ApplyDamage esFrameFix).new_defender.current_life = 75 := by
  obtain ⟨h1, h2, h3⟩ := energy_shield_absorbs_before_life esFrameFix
    (by norm_num [esFrameFix, defenderES, emptyStatBlock])
    (by norm_num [esFrameFix, CombatResult.new])
  constructor
  · rw [h1]
    norm_num [esFrameFix, defenderES, emptyStatBlock, CombatResult.new, fmax]
  · rw [h2]
    norm_num [esFrameFix, defenderES, emptyStatBlock, CombatResult.new, fmax]

/-! ## C4: evasion one-shot cap -/

set_option maxHeartbeats 1000000 in
open Resolve in
/-- C4: the evasion step computes the cap `accuracy / (1 + evasion / scale)`
(default scale factor 1000); whenever the total pre-evasion damage exceeds
the cap (and the evasion/accuracy guard does not fire), the excess is
recorded as `damage_prevented_by_evasion`, `triggered_evasion_cap` is set,
and every damage-type entry is scaled down by the common ratio `cap/total`
rather than selectively. Concretely, with evasion 1000, accuracy 2000 and a
single 1500 fire hit against a defender with no fire resistance,
`total_damage = 1000` and `damage_prevented_by_evasion = 500`. -/
theorem evasion_cap_proportional_scaling :
    (∀ (acc ev : ℚ), calculate_damage_cap EvasionConstants.default acc ev =
      acc / (1 + ev / 1000)) ∧
    (∀ (C : GameConstants) (packet : DamagePacket) (v : ResolveVars),
      0 < v.new_defender.evasion.compute →
      0 < packet.accuracy →
      0 < totalFinal v.result.damage_taken →
      calculate_damage_cap C.evasion packet.accuracy v.new_defender.evasion.compute <
        totalFinal v.result.damage_taken →
      (step3Evasion C packet v).result.triggered_evasion_cap = true ∧
      (step3Evasion C packet v).result.damage_prevented_by_evasion =
        totalFinal v.result.damage_taken -
          calculate_damage_cap C.evasion packet.accuracy v.new_defender.evasion.compute ∧
      (step3Evasion C packet v).result.damage_taken =
        v.result.damage_taken.map (fun d =>
          { d with
            mitigated_amount := d.mitigated_amount + d.final_amount *
              (1 - calculate_damage_cap C.evasion packet.accuracy
                v.new_defender.evasion.compute / totalFinal v.result.damage_taken)
            final_amount := d.final_amount *
              (calculate_damage_cap C.evasion packet.accuracy
                v.new_defender.evasion.compute / totalFinal v.result.damage_taken) })) ∧
    (resolve_damage_with_rng GameConstants.default DotRegistry.new defenderEva packetFire1500
        rngZero).2.1.total_damage = 1000 ∧
    (resolve_damage_with_rng GameConstants.default DotRegistry.new defenderEva packetFire1500
        rngZero).2.1.damage_prevented_by_evasion = 500 ∧
    (resolve_damage_with_rng GameConstants.default DotRegistry.new defenderEva packetFire1500
        rngZero).2.1.triggered_evasion_cap = true := by
  have hconcrete : resolve_damage_with_rng GameConstants.default DotRegistry.new defenderEva
      packetFire1500 rngZero = (vE6.new_defender, vE6.result, vE6.rng) := by
    have hframe :
        resolveDamageFrame GameConstants.default DotRegistry.new packetFire1500
          { defender := defenderEva, new_defender := defenderEva, result := CombatResult.new,
            rng := rngZero } =
        resolveRest GameConstants.default DotRegistry.new packetFire1500 vE1 := by
      norm_num [resolveDamageFrame, initResult, packetFire1500, makeTestPacket, defenderEva,
        emptyStatBlock, CombatResult.new, vE1]
    have h1 : step1Resists GameConstants.default packetFire1500 vE1 = vE2 := by
      norm_num [step1Resists, step1One, packetFire1500, makeTestPacket, defenderEva,
        emptyStatBlock, CombatResult.new, calculate_resistance_mitigation,
        calculate_effective_resistance, rclamp, fmax, StatBlock.resistance, StatValue.compute,
        StatValue.zero, DamagePacket.penetration, ResistanceConstants.default,
        GameConstants.default, vE1, vE2]
    have h2 : step2Armour GameConstants.default vE2 = vE2 := rfl
    have h2b : step2bPhysDR vE2 = vE2 := by
      norm_num [step2bPhysDR, vE2, vE1, rclamp, defenderEva, emptyStatBlock, CombatResult.new]
    have h3 : step3Evasion GameConstants.default packetFire1500 vE2 = vE3 := by
      norm_num [step3Evasion, apply_evasion_cap, calculate_damage_cap, totalFinal, vE2, vE1,
        vE3, packetFire1500, makeTestPacket, defenderEva, emptyStatBlock, CombatResult.new,
        StatValue.compute, StatValue.zero, GameConstants.default, EvasionConstants.default]
    have h3b : step3bBlock vE3 = vE3 := by
      norm_num [step3bBlock, vE3, vE2, vE1, StatBlock.computed_block_chance, defenderEva,
        emptyStatBlock, CombatResult.new]
    have h3c : step3cReducedTaken vE3 = vE3 := by
      norm_num [step3cReducedTaken, vE3, vE2, vE1, rclamp, defenderEva, emptyStatBlock,
        CombatResult.new]
    have htot : stepTotal vE3 = vE4 := by
      norm_num [stepTotal, totalFinal, vE4, vE3, vE2, vE1, CombatResult.new]
    have h4 : step4ApplyDamage vE4 = vE5 := by
      norm_num [step4ApplyDamage, vE5, vE4, vE3, vE2, vE1, fmin, defenderEva, emptyStatBlock,
        CombatResult.new]
    have h4b : step4bCulling packetFire1500 vE5 = vE5 := by
      norm_num [step4bCulling, vE5, vE4, vE3, vE2, vE1, packetFire1500, makeTestPacket,
        CombatResult.new]
    have h4c : step4cOnKill packetFire1500 vE5 = vE5 := by
      norm_num [step4cOnKill, vE5, vE4, vE3, vE2, vE1, CombatResult.new]
    have hsf : storeFinal vE5 = vE6 := by
      norm_num [storeFinal, vE6, vE5, vE4, vE3, vE2, vE1, defenderEva, emptyStatBlock,
        CombatResult.new]
    have h5 : step5Status DotRegistry.new packetFire1500 vE6 = vE6 := by
      norm_num [step5Status, packetFire1500, makeTestPacket]
    unfold resolve_damage_with_rng
    dsimp only
    rw [hframe]
    unfold resolveRest
    dsimp only
    rw [h1, h2, h2b, h3, h3b, h3c, htot, h4, h4b, h4c, hsf, h5]
  refine ⟨fun acc ev => rfl, ?_, ?_, ?_, ?_⟩
  · intro C packet v hev hacc htot hcap
    have hguard : ¬(v.new_defender.evasion.compute ≤ 0 ∨ packet.accuracy ≤ 0) := by
      push_neg
      exact ⟨hev, hacc⟩
    unfold step3Evasion apply_evasion_cap
    dsimp only
    rw [if_neg hguard, if_pos hcap]
    dsimp only
    rw [if_pos (show totalFinal v.result.damage_taken -
      calculate_damage_cap C.evasion packet.accuracy v.new_defender.evasion.compute > 0 by
        linarith)]
    rw [if_pos htot]
    exact ⟨rfl, rfl, rfl⟩
  · rw [hconcrete]
    norm_num [vE6, vE5, vE4, vE3, vE2, vE1, CombatResult.new]
  · rw [hconcrete]
    norm_num [vE6, vE5, vE4, vE3, vE2, vE1, CombatResult.new]
  · rw [hconcrete]
    norm_num [vE6, vE5, vE4, vE3, vE2, vE1, CombatResult.new]

open Resolve in
/-- Witness for C4's capped branch at the pipeline state holding the single
1500 fire entry: cap = 1000 < 1500, so the step flags the cap, prevents 500,
and scales the ledger by 1000/1500. -/
theorem evasion_cap_proportional_scaling_witness :
    (step3Evasion GameConstants.default packetFire1500 vE2).result.triggered_evasion_cap
        = true ∧
    (step3Evasion GameConstants.default packetFire1500 vE2).result.damage_prevented_by_evasion
        = totalFinal vE2.result.damage_taken -
          calculate_damage_cap GameConstants.default.evasion packetFire1500.accuracy
            vE2.new_defender.evasion.compute ∧
    (step3Evasion GameConstants.default packetFire1500 vE2).result.damage_taken =
      vE2.result.damage_taken.map (fun d =>
        { d with
          mitigated_amount := d.mitigated_amount + d.final_amount *
            (1 - calculate_damage_cap GameConstants.default.evasion packetFire1500.accuracy
              vE2.new_defender.evasion.compute / totalFinal vE2.result.damage_taken)
          final_amount := d.final_amount *
            (calculate_damage_cap GameConstants.default.evasion packetFire1500.accuracy
              vE2.new_defender.evasion.compute / totalFinal vE2.result.damage_taken) }) :=
  evasion_cap_proportional_scaling.2.1 GameConstants.default packetFire1500 vE2
    (by norm_num [vE2, vE1, defenderEva, emptyStatBlock, StatValue.compute, StatValue.zero])
    (by norm_num [packetFire1500, makeTestPacket])
    (by norm_num [vE2, vE1, totalFinal, CombatResult.new])
    (by norm_num [vE2, vE1, totalFinal, CombatResult.new, calculate_damage_cap,
      GameConstants.default, EvasionConstants.default, defenderEva, emptyStatBlock,
      StatValue.compute, StatValue.zero, packetFire1500, makeTestPacket])

/-! ## C5: buildup-based status application -/

theorem add_effect_status_buildup (b : StatBlock) (e : Effect) :
    (b.add_effect e).status_buildup = b.status_buildup := by
  unfold StatBlock.add_effect
  dsimp only
  repeat' split
  all_goals rfl

open Resolve in
theorem step5One_buildup_below (reg : DotRegistry) (packet : DamagePacket) (tmh : ℚ)
    (v : ResolveVars) (ps : PendingStatusEffect) (threshold : ℚ) (cfg : DotConfig)
    (hcfg : reg.get (status_to_config_id ps.effect_type) = some cfg)
    (happ : cfg.application = StatusApplication.Buildup threshold)
    (hlt : v.new_defender.status_buildup ps.effect_type + ps.status_damage < threshold) :
    (step5One reg packet tmh v ps).new_defender.status_buildup ps.effect_type =
      v.new_defender.status_buildup ps.effect_type + ps.status_damage ∧
    (step5One reg packet tmh v ps).result.effects_applied = v.result.effects_applied ∧
    (step5One reg packet tmh v ps).new_defender.effects = v.new_defender.effects := by
  unfold step5One
  rw [hcfg]
  dsimp only [Option.map]
  rw [happ]
  dsimp only
  rw [if_neg (not_le.mpr hlt)]
  dsimp only
  rw [if_neg (by simp)]
  refine ⟨?_, rfl, rfl⟩
  dsimp only
  rw [if_pos rfl]

open Resolve in
theorem step5One_buildup_cross (reg : DotRegistry) (packet : DamagePacket) (tmh : ℚ)
    (v : ResolveVars) (ps : PendingStatusEffect) (threshold : ℚ) (cfg : DotConfig)
    (hcfg : reg.get (status_to_config_id ps.effect_type) = some cfg)
    (happ : cfg.application = StatusApplication.Buildup threshold)
    (hge : threshold ≤ v.new_defender.status_buildup ps.effect_type + ps.status_damage) :
    (step5One reg packet tmh v ps).new_defender.status_buildup ps.effect_type =
      v.new_defender.status_buildup ps.effect_type + ps.status_damage - threshold ∧
    (step5One reg packet tmh v ps).result.effects_applied =
      v.result.effects_applied ++
        [create_effect_from_status reg ps.effect_type ps.duration ps.magnitude ps.dot_dps
          packet.source_id] := by
  unfold step5One
  rw [hcfg]
  dsimp only [Option.map]
  rw [happ]
  dsimp only
  rw [if_pos (ge_iff_le.mpr hge)]
  dsimp only
  rw [if_pos (by simp)]
  refine ⟨?_, rfl⟩
  rw [add_effect_status_buildup]
  dsimp only
  rw [if_pos rfl]

open Resolve in
/-- C5: for a status whose `DotConfig` application mode is
`Buildup{threshold}`, each pending status request adds its `status_damage`
to the defender's per-status buildup accumulator. While the accumulator
stays below the threshold no effect is applied (the ledger of applied
effects and the defender's effect list are unchanged) and the accumulator
equals the sum of all additions so far; on the addition that reaches or
exceeds the threshold, the effect is appended exactly once and exactly one
threshold is subtracted, retaining the remainder. -/
theorem buildup_status_application :
    (∀ (reg : DotRegistry) (packet : DamagePacket) (tmh : ℚ) (v : ResolveVars)
      (ps : PendingStatusEffect) (threshold : ℚ) (cfg : DotConfig),
      reg.get (status_to_config_id ps.effect_type) = some cfg →
      cfg.application = StatusApplication.Buildup threshold →
      v.new_defender.status_buildup ps.effect_type + ps.status_damage < threshold →
      (step5One reg packet tmh v ps).new_defender.status_buildup ps.effect_type =
        v.new_defender.status_buildup ps.effect_type + ps.status_damage ∧
      (step5One reg packet tmh v ps).result.effects_applied = v.result.effects_applied ∧
      (step5One reg packet tmh v ps).new_defender.effects = v.new_defender.effects) ∧
    (∀ (reg : DotRegistry) (packet : DamagePacket) (tmh : ℚ) (v : ResolveVars)
      (ps : PendingStatusEffect) (threshold : ℚ) (cfg : DotConfig),
      reg.get (status_to_config_id ps.effect_type) = some cfg →
      cfg.application = StatusApplication.Buildup threshold →
      threshold ≤ v.new_defender.status_buildup ps.effect_type + ps.status_damage →
      (step5One reg packet tmh v ps).new_defender.status_buildup ps.effect_type =
        v.new_defender.status_buildup ps.effect_type + ps.status_damage - threshold ∧
      (step5One reg packet tmh v ps).result.effects_applied =
        v.result.effects_applied ++
          [create_effect_from_status reg ps.effect_type ps.duration ps.magnitude ps.dot_dps
            packet.source_id]) ∧
    (∀ (reg : DotRegistry) (packet : DamagePacket) (tmh : ℚ) (st : StatusEffect)
      (threshold : ℚ) (cfg : DotConfig),
      reg.get (status_to_config_id st) = some cfg →
      cfg.application = StatusApplication.Buildup threshold →
      ∀ (l : List PendingStatusEffect) (v : ResolveVars),
        (∀ p ∈ l, p.effect_type = st) →
        (∀ n : ℕ, n ≤ l.length →
          v.new_defender.status_buildup st +
            ((l.take n).map (fun p => p.status_damage)).sum < threshold) →
        (l.foldl (step5One reg packet tmh) v).new_defender.status_buildup st =
          v.new_defender.status_buildup st + (l.map (fun p => p.status_damage)).sum ∧
        (l.foldl (step5One reg packet tmh) v).result.effects_applied =
          v.result.effects_applied) := by
  refine ⟨fun reg packet tmh v ps threshold cfg hcfg happ hlt =>
      step5One_buildup_below reg packet tmh v ps threshold cfg hcfg happ hlt,
    fun reg packet tmh v ps threshold cfg hcfg happ hge =>
      step5One_buildup_cross reg packet tmh v ps threshold cfg hcfg happ hge,
    ?_⟩
  intro reg packet tmh st threshold cfg hcfg happ l
  induction l with
  | nil =>
      intro v _ _
      simp
  | cons p l' ih =>
      intro v hall hpre
      have hp : p.effect_type = st := hall p (List.mem_cons_self p l')
      have h1 : v.new_defender.status_buildup st + p.status_damage < threshold := by
        have := hpre 1 (by simp)
        simpa using this
      have hlt : v.new_defender.status_buildup p.effect_type + p.status_damage < threshold := by
        rw [hp]
        exact h1
      obtain ⟨hb, he, _⟩ := step5One_buildup_below reg packet tmh v p threshold cfg
        (by rw [hp]; exact hcfg) happ hlt
      rw [List.foldl_cons]
      have hb' : (step5One reg packet tmh v p).new_defender.status_buildup st =
          v.new_defender.status_buildup st + p.status_damage := by
        rw [hp] at hb
        exact hb
      obtain ⟨ih1, ih2⟩ := ih (step5One reg packet tmh v p)
        (fun q hq => hall q (List.mem_cons_of_mem p hq))
        (by
          intro n hn
          rw [hb']
          have := hpre (n + 1) (by simpa using hn)
          simpa [add_assoc] using this)
      refine ⟨?_, by rw [ih2, he]⟩
      rw [ih1, hb']
      simp [add_assoc]

open Resolve in
/-- Witness for C5's accumulation clause: two sub-threshold poison requests
of 40 against threshold 100 leave the buildup at the sum 80 and apply
nothing. -/
theorem buildup_status_application_witness :
    ([pendingPoison 40, pendingPoison 40].foldl
        (step5One buildupRegistry packetFire75 0) esFrameFix).new_defender.status_buildup
      StatusEffect.Poison =
      esFrameFix.new_defender.status_buildup StatusEffect.Poison +
        (([pendingPoison 40, pendingPoison 40]).map
          (fun p => p.status_damage)).sum ∧
    ([pendingPoison 40, pendingPoison 40].foldl
        (step5One buildupRegistry packetFire75 0) esFrameFix).result.effects_applied =
      esFrameFix.result.effects_applied :=
  buildup_status_application.2.2 buildupRegistry packetFire75 0 StatusEffect.Poison 100
    poisonBuildupConfig rfl rfl [pendingPoison 40, pendingPoison 40] esFrameFix
    (by
      intro p hp
      simp only [List.mem_cons, List.mem_singleton, List.not_mem_nil, or_false] at hp
      rcases hp with h | h <;> (subst h; rfl))
    (by
      intro n hn
      simp only [List.length_cons, List.length_nil] at hn
      interval_cases n <;>
        norm_num [pendingPoison, esFrameFix, defenderES, emptyStatBlock])

/-! ## C6 and C10: the Effect::tick catch-up loop -/

theorem tickLoop_sound (per_tick rate dur : ℚ) :
    ∀ (fuel : ℕ) (t dmg t' dmg' : ℚ),
      tickLoop per_tick rate dur fuel t dmg = some (t', dmg') →
      ∃ n : ℕ, t' = t + n * rate ∧ dmg' = dmg + n * per_tick ∧
        (∀ m : ℕ, m < n → (t + m * rate ≤ 0 ∧ 0 < dur)) ∧
        ¬(t' ≤ 0 ∧ 0 < dur) := by
  intro fuel
  induction fuel with
  | zero =>
      intro t dmg t' dmg' h
      unfold tickLoop at h
      split at h
      · cases h
      · rename_i hguard
        cases h
        exact ⟨0, by simp, by simp, fun m hm => absurd hm (Nat.not_lt_zero m), hguard⟩
  | succ fuel ih =>
      intro t dmg t' dmg' h
      unfold tickLoop at h
      split at h
      · rename_i hguard
        obtain ⟨n, h1, h2, h3, h4⟩ := ih _ _ _ _ h
        refine ⟨n + 1, ?_, ?_, ?_, h4⟩
        · rw [h1]; push_cast; ring
        · rw [h2]; push_cast; ring
        · intro m hm
          cases m with
          | zero => simpa using hguard
          | succ k =>
              refine ⟨?_, (h3 k (by omega)).2⟩
              have h' := (h3 k (by omega)).1
              push_cast at h' ⊢
              linarith
      · rename_i hguard
        cases h
        exact ⟨0, by simp, by simp, fun m hm => absurd hm (Nat.not_lt_zero m), hguard⟩

theorem tickLoop_isSome (per_tick rate dur : ℚ) :
    ∀ (fuel : ℕ) (t dmg : ℚ), (0 < dur → 0 < t + fuel * rate) →
      (tickLoop per_tick rate dur fuel t dmg).isSome := by
  intro fuel
  induction fuel with
  | zero =>
      intro t dmg hf
      unfold tickLoop
      split
      · rename_i hguard
        exfalso
        have := hf hguard.2
        simp at this
        linarith [hguard.1]
      · rfl
  | succ fuel ih =>
      intro t dmg hf
      unfold tickLoop
      split
      · refine ih _ _ ?_
        intro hdur
        have := hf hdur
        push_cast at this ⊢
        linarith
      · rfl

theorem tickLoop_none_of_nonpos (per_tick rate dur : ℚ) (hrate : rate ≤ 0) :
    ∀ (fuel : ℕ) (t dmg : ℚ), t ≤ 0 → 0 < dur →
      tickLoop per_tick rate dur fuel t dmg = none := by
  intro fuel
  induction fuel with
  | zero =>
      intro t dmg ht hdur
      unfold tickLoop
      rw [if_pos ⟨ht, hdur⟩]
  | succ fuel ih =>
      intro t dmg ht hdur
      unfold tickLoop
      rw [if_pos ⟨ht, hdur⟩]
      exact ih _ _ (by linarith) hdur

theorem tick_duration_always (e : Effect) (delta : ℚ) (fuel : ℕ) (e' : Effect) (dmg : ℚ)
    (hrun : e.tick delta fuel = some (e', dmg)) :
    e'.duration_remaining = e.duration_remaining - delta := by
  unfold Effect.tick at hrun
  split at hrun
  · split at hrun
    · split at hrun
      · cases hrun
      · cases hrun
        rfl
    · cases hrun
      rfl
  · cases hrun
    rfl

theorem tick_ailment_spec (e : Effect) (status : StatusEffect)
    (magnitude dot_dps tick_rate t₀ : ℚ) (stacking : AilmentStacking) (eff : ℚ)
    (he : e.effect_type = .Ailment status magnitude dot_dps tick_rate t₀ stacking eff)
    (hdps : 0 < dot_dps) (delta : ℚ) (fuel : ℕ) (e' : Effect) (dmg : ℚ)
    (hrun : e.tick delta fuel = some (e', dmg)) :
    ∃ n : ℕ,
      dmg = n * (dot_dps * tick_rate * e.stacks' * eff) ∧
      e'.duration_remaining = e.duration_remaining - delta ∧
      e'.effect_type = .Ailment status magnitude dot_dps tick_rate
        (t₀ - delta + n * tick_rate) stacking eff ∧
      (∀ m : ℕ, m < n → (t₀ - delta + m * tick_rate ≤ 0 ∧ 0 < e.duration_remaining)) ∧
      ¬(t₀ - delta + n * tick_rate ≤ 0 ∧ 0 < e.duration_remaining) := by
  unfold Effect.tick at hrun
  rw [he] at hrun
  dsimp only at hrun
  rw [if_pos hdps] at hrun
  cases htl : tickLoop (dot_dps * tick_rate * (e.stacks' : ℚ) * eff) tick_rate
      e.duration_remaining fuel (t₀ - delta) 0 with
  | none => rw [htl] at hrun; cases hrun
  | some td =>
      rw [htl] at hrun
      obtain ⟨t', d'⟩ := td
      cases hrun
      obtain ⟨n, h1, h2, h3, h4⟩ := tickLoop_sound _ _ _ _ _ _ _ _ htl
      refine ⟨n, by rw [h2]; ring, rfl, ?_, h3, by rw [← h1]; exact h4⟩
      rw [h1]

/-- C6: `Effect::tick(delta)` on an ailment with positive `dot_dps` first
subtracts `delta` from `time_until_tick` and then catches up: it fires some
number `n` of ticks — `n` is exactly the number of times the loop guard
`time_until_tick ≤ 0 ∧ duration_remaining > 0` holds while re-adding
`tick_rate` — dealing `n * (dot_dps * tick_rate * stacks * effectiveness)`
total damage and leaving the cursor at `time_until_tick - delta + n *
tick_rate`; `duration_remaining` is decremented by `delta` on every call
(tick or no tick, ailment or not). -/
theorem effect_tick_catchup :
    (∀ (e : Effect) (delta : ℚ) (fuel : ℕ) (e' : Effect) (dmg : ℚ),
      e.tick delta fuel = some (e', dmg) →
      e'.duration_remaining = e.duration_remaining - delta) ∧
    (∀ (e : Effect) (status : StatusEffect) (magnitude dot_dps tick_rate t₀ : ℚ)
      (stacking : AilmentStacking) (eff : ℚ),
      e.effect_type = .Ailment status magnitude dot_dps tick_rate t₀ stacking eff →
      0 < dot_dps →
      ∀ (delta : ℚ) (fuel : ℕ) (e' : Effect) (dmg : ℚ),
        e.tick delta fuel = some (e', dmg) →
        ∃ n : ℕ,
          dmg = n * (dot_dps * tick_rate * e.stacks' * eff) ∧
          e'.duration_remaining = e.duration_remaining - delta ∧
          e'.effect_type = .Ailment status magnitude dot_dps tick_rate
            (t₀ - delta + n * tick_rate) stacking eff ∧
          (∀ m : ℕ, m < n → (t₀ - delta + m * tick_rate ≤ 0 ∧ 0 < e.duration_remaining)) ∧
          ¬(t₀ - delta + n * tick_rate ≤ 0 ∧ 0 < e.duration_remaining)) :=
  ⟨fun e delta fuel e' dmg hrun => tick_duration_always e delta fuel e' dmg hrun,
   fun e status magnitude dot_dps tick_rate t₀ stacking eff he hdps delta fuel e' dmg hrun =>
     tick_ailment_spec e status magnitude dot_dps tick_rate t₀ stacking eff he hdps delta
       fuel e' dmg hrun⟩

/-- Witness for C6 at `burnEffect` (10 DPS, tick rate 1, cursor 1, duration
5) ticked by 3: the run yields 30 damage over 3 catch-up ticks and consumes
3 seconds of duration. -/
theorem effect_tick_catchup_witness :
    burnEffectAfter.duration_remaining = burnEffect.duration_remaining - 3 ∧
    ∃ n : ℕ,
      (30 : ℚ) = n * (10 * 1 * burnEffect.stacks' * 1) ∧
      burnEffectAfter.duration_remaining = burnEffect.duration_remaining - 3 ∧
      burnEffectAfter.effect_type = .Ailment StatusEffect.Burn 1 10 1
        (1 - 3 + n * 1) AilmentStacking.StrongestOnly 1 ∧
      (∀ m : ℕ, m < n → ((1 : ℚ) - 3 + m * 1 ≤ 0 ∧ 0 < burnEffect.duration_remaining)) ∧
      ¬((1 : ℚ) - 3 + n * 1 ≤ 0 ∧ 0 < burnEffect.duration_remaining) := by
  have hrun : burnEffect.tick 3 10 = some (burnEffectAfter, 30) := by
    norm_num [Effect.tick, tickLoop, burnEffect, burnEffectAfter]
  exact ⟨effect_tick_catchup.1 burnEffect 3 10 burnEffectAfter 30 hrun,
    effect_tick_catchup.2 burnEffect StatusEffect.Burn 1 10 1 1
      AilmentStacking.StrongestOnly 1 rfl (by norm_num) 3 10 burnEffectAfter 30 hrun⟩

theorem tick_terminates (e : Effect) (status : StatusEffect)
    (magnitude dot_dps tick_rate t₀ : ℚ) (stacking : AilmentStacking) (eff : ℚ)
    (he : e.effect_type = .Ailment status magnitude dot_dps tick_rate t₀ stacking eff)
    (hrate : 0 < tick_rate) (ht₀ : 0 < t₀) (delta : ℚ) (hdelta : 0 ≤ delta) :
    ∃ (fuel : ℕ) (e' : Effect) (dmg : ℚ) (n : ℕ),
      e.tick delta fuel = some (e', dmg) ∧
      dmg = n * (dot_dps * tick_rate * e.stacks' * eff) ∧
      (n : ℚ) ≤ delta / tick_rate + 1 := by
  by_cases hdps : 0 < dot_dps
  · set fuel := ⌈(delta - t₀) / tick_rate⌉₊ + 1 with hfuel
    have hpos : 0 < e.duration_remaining → 0 < (t₀ - delta) + fuel * tick_rate := by
      intro _
      have hceil : (delta - t₀) / tick_rate ≤ (⌈(delta - t₀) / tick_rate⌉₊ : ℚ) :=
        Nat.le_ceil _
      have hmul : (delta - t₀) ≤ (⌈(delta - t₀) / tick_rate⌉₊ : ℚ) * tick_rate := by
        rw [div_le_iff hrate] at hceil
        linarith
      have hexp : (fuel : ℚ) * tick_rate =
          (⌈(delta - t₀) / tick_rate⌉₊ : ℚ) * tick_rate + tick_rate := by
        rw [hfuel]
        push_cast
        ring
      rw [hexp]
      linarith
    have hsome := tickLoop_isSome (dot_dps * tick_rate * (e.stacks' : ℚ) * eff) tick_rate
      e.duration_remaining fuel (t₀ - delta) 0 hpos
    obtain ⟨⟨t', d'⟩, htl⟩ := Option.isSome_iff_exists.mp hsome
    obtain ⟨n, h1, h2, h3, h4⟩ := tickLoop_sound _ _ _ _ _ _ _ _ htl
    have htick : e.tick delta fuel = some ({ e with
        effect_type := .Ailment status magnitude dot_dps tick_rate t' stacking eff
        duration_remaining := e.duration_remaining - delta }, d') := by
      unfold Effect.tick
      rw [he]
      dsimp only
      rw [if_pos hdps, htl]
    refine ⟨fuel, _, _, n, htick, by rw [h2]; ring, ?_⟩
    rcases Nat.eq_zero_or_pos n with hn | hn
    · subst hn
      push_cast
      have : 0 ≤ delta / tick_rate := div_nonneg hdelta (le_of_lt hrate)
      linarith
    · have hm := (h3 (n - 1) (by omega)).1
      have hcast : ((n - 1 : ℕ) : ℚ) = (n : ℚ) - 1 := by
        have h1n : (1 : ℕ) ≤ n := hn
        push_cast [h1n]
        ring
      rw [hcast] at hm
      have h5 : ((n : ℚ) - 1) * tick_rate ≤ delta := by linarith
      have h6 : (n : ℚ) - 1 ≤ delta / tick_rate := by
        rw [le_div_iff hrate]
        exact h5
      linarith
  · have htick : e.tick delta 0 = some ({ e with
        duration_remaining := e.duration_remaining - delta }, 0) := by
      unfold Effect.tick
      rw [he]
      dsimp only
      rw [if_neg hdps]
    refine ⟨0, _, _, 0, htick, by push_cast; ring, ?_⟩
    push_cast
    have : 0 ≤ delta / tick_rate := div_nonneg hdelta (le_of_lt hrate)
    linarith

theorem tick_diverges (e : Effect) (status : StatusEffect)
    (magnitude dot_dps tick_rate t₀ : ℚ) (stacking : AilmentStacking) (eff : ℚ)
    (he : e.effect_type = .Ailment status magnitude dot_dps tick_rate t₀ stacking eff)
    (hrate : tick_rate ≤ 0) (hdps : 0 < dot_dps) (delta : ℚ) (ht : t₀ - delta ≤ 0)
    (hdur : 0 < e.duration_remaining) :
    ∀ fuel : ℕ, e.tick delta fuel = none := by
  intro fuel
  unfold Effect.tick
  rw [he]
  dsimp only
  rw [if_pos hdps]
  rw [tickLoop_none_of_nonpos _ _ _ hrate fuel _ _ ht hdur]

/-- C10: the catch-up loop of `Effect::tick(delta)` terminates for every
effect and every `delta ≥ 0` when the ailment's `tick_rate` is strictly
positive (given the invariant that the pre-call cursor is positive): some
finite fuel makes the embedded loop return, and the number of ticks fired
is at most `delta / tick_rate + 1`. The positivity of `tick_rate` is
necessary: with `tick_rate ≤ 0`, a due tick and remaining duration, the
loop runs forever (no fuel suffices). -/
theorem effect_tick_termination :
    (∀ (e : Effect) (status : StatusEffect) (magnitude dot_dps tick_rate t₀ : ℚ)
      (stacking : AilmentStacking) (eff : ℚ),
      e.effect_type = .Ailment status magnitude dot_dps tick_rate t₀ stacking eff →
      0 < tick_rate → 0 < t₀ → ∀ delta : ℚ, 0 ≤ delta →
      ∃ (fuel : ℕ) (e' : Effect) (dmg : ℚ) (n : ℕ),
        e.tick delta fuel = some (e', dmg) ∧
        dmg = n * (dot_dps * tick_rate * e.stacks' * eff) ∧
        (n : ℚ) ≤ delta / tick_rate + 1) ∧
    (∀ (e : Effect) (status : StatusEffect) (magnitude dot_dps tick_rate t₀ : ℚ)
      (stacking : AilmentStacking) (eff : ℚ),
      e.effect_type = .Ailment status magnitude dot_dps tick_rate t₀ stacking eff →
      tick_rate ≤ 0 → 0 < dot_dps → ∀ delta : ℚ, t₀ - delta ≤ 0 →
      0 < e.duration_remaining →
      ∀ fuel : ℕ, e.tick delta fuel = none) :=
  ⟨fun e status magnitude dot_dps tick_rate t₀ stacking eff he hrate ht₀ delta hdelta =>
     tick_terminates e status magnitude dot_dps tick_rate t₀ stacking eff he hrate ht₀
       delta hdelta,
   fun e status magnitude dot_dps tick_rate t₀ stacking eff he hrate hdps delta ht hdur =>
     tick_diverges e status magnitude dot_dps tick_rate t₀ stacking eff he hrate hdps
       delta ht hdur⟩

/-- Witness for C10: the burn ailment terminates under a 3-second tick with
at most 4 ticks, while the zero-tick-rate ailment diverges at every fuel —
in particular fuel 7. -/
theorem effect_tick_termination_witness :
    (∃ (fuel : ℕ) (e' : Effect) (dmg : ℚ) (n : ℕ),
      burnEffect.tick 3 fuel = some (e', dmg) ∧
      dmg = n * (10 * 1 * burnEffect.stacks' * 1) ∧
      (n : ℚ) ≤ 3 / 1 + 1) ∧
    stuckEffect.tick 1 7 = none :=
  ⟨effect_tick_termination.1 burnEffect StatusEffect.Burn 1 10 1 1
      AilmentStacking.StrongestOnly 1 rfl (by norm_num) (by norm_num) 3 (by norm_num),
   effect_tick_termination.2 stuckEffect StatusEffect.Burn 1 10 0 0
      AilmentStacking.StrongestOnly 1 rfl (by norm_num) (by norm_num) 1 (by norm_num)
      (by norm_num [stuckEffect]) 7⟩

end Obelisk
